import Mathlib

/-!
Verification of the Trello command-tool plugin (two source variants:
`src/plugin/trello.ts`, which logs its results through the host context, and
`src/unnamed/part_000`, which returns its results as strings).

The embedding is shallow: each tool operation becomes a total Lean function
from a host context, a process environment, and a remote-transport oracle to
the operation's textual output paired with the list of HTTP requests it
issued.  JavaScript truthiness on optional string values is modelled
explicitly (`none` and `some ""` are both falsy).  The `trello.ts` variant
stores its glyph literals in a double-encoded (mojibake) form on disk; the
embedding reproduces those literal characters exactly, written as unicode
escapes.
-/

set_option maxRecDepth 16384

namespace Trello

/-- Configuration record, from the `TrelloConfig` interface. -/
structure TrelloConfig where
  apiKey : String
  apiToken : String
  boardId : String
  defaultListId : Option String
deriving DecidableEq

/-- A card label, from the inline `labels` element type of `TrelloCard`. -/
structure TrelloLabel where
  id : String
  name : String
  color : String
deriving DecidableEq

/-- A card, from the `TrelloCard` interface.  The `due` field is
`string | null` in the source, hence `Option String` here. -/
structure TrelloCard where
  id : String
  name : String
  desc : String
  url : String
  shortLink : String
  idList : String
  closed : Bool
  due : Option String
  labels : List TrelloLabel
deriving DecidableEq

/-- A list (column), from the `TrelloList` interface. -/
structure TrelloList where
  id : String
  name : String
  closed : Bool
  pos : Int
deriving DecidableEq

/-- A board, from the `TrelloBoard` interface. -/
structure TrelloBoard where
  id : String
  name : String
  url : String
deriving DecidableEq

/-- The process environment: the four `process.env` variables the plugin
reads.  `none` models an unset variable. -/
structure Env where
  TRELLO_API_KEY : Option String
  TRELLO_API_TOKEN : Option String
  TRELLO_BOARD_ID : Option String
  TRELLO_DEFAULT_LIST_ID : Option String
deriving DecidableEq

/-- The host-supplied context argument.  Both variants thread it into
`getConfig`, which ignores it; its content is modelled as an arbitrary
key-value bag. -/
structure Ctx where
  hostData : List (String × String)
deriving DecidableEq

/-- JavaScript truthiness of an optional string: `undefined` and the empty
string are falsy. -/
def truthy : Option String → Bool
  | none => false
  | some s => !(s == "")

/-- Normalize an optional string by JS truthiness: a falsy value becomes
`none` (models expressions such as `args.listId || null`). -/
def truthyOpt : Option String → Option String
  | none => none
  | some s => if s == "" then none else some s

/-- JavaScript `a || b` on optional strings: the left value is kept when
truthy, otherwise the right value is returned as-is. -/
def jsOr (a b : Option String) : Option String :=
  match truthyOpt a with
  | some s => some s
  | none => b

/-- Error message thrown by `getConfig` in `src/unnamed/part_000`. -/
def configIncompleteMsg : String :=
  "Trello configuration incomplete. Please provide TRELLO_API_KEY, TRELLO_API_TOKEN, and TRELLO_BOARD_ID in your environment."

/-- Error message thrown by `getConfig` in `src/plugin/trello.ts` (bullet
glyphs double-encoded as in the source file). -/
def configIncompleteMsgTs : String :=
  "Trello configuration incomplete. Please set these environment variables:\n" ++
  "  ‚Ä¢ TRELLO_API_KEY\n" ++
  "  ‚Ä¢ TRELLO_API_TOKEN\n" ++
  "  ‚Ä¢ TRELLO_BOARD_ID\n" ++
  "  ‚Ä¢ TRELLO_DEFAULT_LIST_ID (optional)\n\n" ++
  "Run /trello-setup for help."

/-- `getConfig` of `src/unnamed/part_000`: reads the four environment
variables, throws when a required one is falsy, ignores its context
argument. -/
def getConfig (env : Env) (_ctx : Ctx) : Except String TrelloConfig :=
  if !(truthy env.TRELLO_API_KEY) || !(truthy env.TRELLO_API_TOKEN) || !(truthy env.TRELLO_BOARD_ID) then
    .error configIncompleteMsg
  else
    .ok ⟨env.TRELLO_API_KEY.getD "", env.TRELLO_API_TOKEN.getD "",
         env.TRELLO_BOARD_ID.getD "", env.TRELLO_DEFAULT_LIST_ID⟩

/-- `getConfig` of `src/plugin/trello.ts`: identical logic, different error
message. -/
def getConfigTs (env : Env) (_ctx : Ctx) : Except String TrelloConfig :=
  if !(truthy env.TRELLO_API_KEY) || !(truthy env.TRELLO_API_TOKEN) || !(truthy env.TRELLO_BOARD_ID) then
    .error configIncompleteMsgTs
  else
    .ok ⟨env.TRELLO_API_KEY.getD "", env.TRELLO_API_TOKEN.getD "",
         env.TRELLO_BOARD_ID.getD "", env.TRELLO_DEFAULT_LIST_ID⟩

/-- A JSON value as it occurs in the request bodies this plugin builds. -/
inductive JVal where
  | str : String → JVal
  | bool : Bool → JVal
  | arr : List String → JVal
deriving DecidableEq

/-- A JSON request body: key/value pairs in insertion order. -/
abbrev Body := List (String × JVal)

/-- The query-parameter list of `URLSearchParams({key, token, ...params})`:
the authentication pair followed by the per-call parameters, in insertion
order. -/
def authParams (config : TrelloConfig) (params : List (String × String)) : List (String × String) :=
  ("key", config.apiKey) :: ("token", config.apiToken) :: params

/-- Serialize a query-parameter list (percent-encoding abstracted away). -/
def encodeQuery (q : List (String × String)) : String :=
  String.intercalate "&" (q.map fun p => p.1 ++ "=" ++ p.2)

/-- `buildUrl`: base URL, path, then the serialized query string. -/
def buildUrl (config : TrelloConfig) (path : String) (params : List (String × String)) : String :=
  "https://api.trello.com/1" ++ path ++ "?" ++ encodeQuery (authParams config params)

/-- The JSON headers both `trelloFetch` variants always set. -/
def jsonHeaders : List (String × String) :=
  [("Accept", "application/json"), ("Content-Type", "application/json")]

/-- An outbound HTTP request as assembled by the fetch helpers. -/
structure Request where
  method : String
  url : String
  path : String
  query : List (String × String)
  headers : List (String × String)
  body : Option Body
deriving DecidableEq

/-- Outcome of one call of the remote transport: a parsed JSON payload, a
non-success HTTP status with its body text, or a network-level failure. -/
inductive FetchResult (α : Type) where
  | success : α → FetchResult α
  | httpError : Nat → String → FetchResult α
  | networkError : String → FetchResult α

/-- The remote transport oracle, one channel per payload type the tools
parse (`free` for calls whose parsed payload is discarded). -/
structure Remote where
  cards : Request → FetchResult (List TrelloCard)
  card : Request → FetchResult TrelloCard
  boards : Request → FetchResult (List TrelloBoard)
  lists : Request → FetchResult (List TrelloList)
  free : Request → FetchResult Unit

/-- The request value a fetch helper assembles from its inputs. -/
def reqOf (config : TrelloConfig) (path : String) (method : String) (body : Option Body)
    (queryParams : List (String × String)) : Request :=
  ⟨method, buildUrl config path queryParams, path, authParams config queryParams, jsonHeaders, body⟩

/-- `trelloFetch` of `src/unnamed/part_000`: builds the URL from path and
query parameters (authentication pair first), sets the JSON headers, issues
the single request, and converts a non-ok response into an error string
carrying status and body text.  Returns the result together with the list
of requests issued. -/
def trelloFetch {α : Type} (config : TrelloConfig) (path : String) (method : String)
    (body : Option Body) (queryParams : List (String × String))
    (call : Request → FetchResult α) : Except String α × List Request :=
  let req : Request := reqOf config path method body queryParams
  match call req with
  | .success v => (.ok v, [req])
  | .httpError status err =>
      (.error ("Trello API error (" ++ toString status ++ "): " ++ err), [req])
  | .networkError m => (.error m, [req])

/-- `trelloFetch` of `src/plugin/trello.ts`: same shape, but its signature
has no query-parameter argument — `buildUrl` is called with the default
empty parameter record, so only the authentication pair reaches the URL.
(The per-call filter objects that callers pass in the `RequestInit`
position are spread into the fetch options and never appear in the URL;
they are therefore absent from the request this model builds.) -/
def trelloFetchTs {α : Type} (config : TrelloConfig) (path : String) (method : String)
    (body : Option Body) (call : Request → FetchResult α) : Except String α × List Request :=
  let req : Request := reqOf config path method body []
  match call req with
  | .success v => (.ok v, [req])
  | .httpError status err =>
      (.error ("Trello API error (" ++ toString status ++ "): " ++ err), [req])
  | .networkError m => (.error m, [req])

/-- Character-level model of JavaScript `s.substring(0, n)`. -/
def strTake (s : String) (n : Nat) : String := ⟨s.toList.take n⟩

/-- Character-level model of JavaScript `s.length`. -/
def strLen (s : String) : Nat := s.toList.length

/-- The description segment built by both `formatCard` variants: empty when
the description is falsy, otherwise a line break, the first 100 characters,
and the truncation marker exactly when the description exceeds 100
characters.  (This expression is byte-identical in both source files.) -/
def cardDescSegment (desc : String) : String :=
  if desc == "" then ""
  else "\n   " ++ strTake desc 100 ++ (if 100 < strLen desc then "..." else "")

/-- Everything `formatCard` (part_000 variant) emits before the description
segment: index, status glyph, name, optional due date, labels, identifier
and owning-list lines. -/
def formatCardLead (fmtDate : String → String) (card : TrelloCard) (index : Nat) : String :=
  let status := if card.closed then "🔴 Done" else "🟢 In Progress"
  let labels :=
    if card.labels.length > 0 then
      String.intercalate " " (card.labels.map fun l => "[" ++ l.color ++ " " ++ l.name ++ "]")
    else ""
  let due := match truthyOpt card.due with
    | some d => " 📅 " ++ fmtDate d
    | none => ""
  toString (index + 1) ++ ". " ++ status ++ " " ++ card.name ++ due ++ labels ++
    "\n   ID: " ++ card.shortLink ++ "\n   List: " ++ card.idList

/-- `formatCard` of `src/unnamed/part_000` (`fmtDate` abstracts the
locale-dependent `toLocaleDateString` rendering). -/
def formatCard (fmtDate : String → String) (card : TrelloCard) (index : Nat) : String :=
  formatCardLead fmtDate card index ++ cardDescSegment card.desc

/-- `formatList` of `src/unnamed/part_000`. -/
def formatList (list : TrelloList) (index : Nat) : String :=
  let status := if list.closed then "🔴 Closed" else "🟢 Open"
  toString (index + 1) ++ ". " ++ status ++ " " ++ list.name ++ "\n   ID: " ++ list.id

/-- `formatBoard` of `src/unnamed/part_000`. -/
def formatBoard (board : TrelloBoard) (index : Nat) : String :=
  toString (index + 1) ++ ". 📋 " ++ board.name ++ "\n   ID: " ++ board.id ++
    "\n   URL: " ++ board.url

/-- Lead part of `formatCard` from `src/plugin/trello.ts` — same structure,
glyphs double-encoded as stored in that file. -/
def formatCardLeadTs (fmtDate : String → String) (card : TrelloCard) (index : Nat) : String :=
  let status := if card.closed then "üî¥ Done" else "üü¢ In Progress"
  let labels :=
    if card.labels.length > 0 then
      String.intercalate " " (card.labels.map fun l => "[" ++ l.color ++ " " ++ l.name ++ "]")
    else ""
  let due := match truthyOpt card.due with
    | some d => " üìÖ " ++ fmtDate d
    | none => ""
  toString (index + 1) ++ ". " ++ status ++ " " ++ card.name ++ due ++ labels ++
    "\n   ID: " ++ card.shortLink ++ "\n   List: " ++ card.idList

/-- `formatCard` of `src/plugin/trello.ts`. -/
def formatCardTs (fmtDate : String → String) (card : TrelloCard) (index : Nat) : String :=
  formatCardLeadTs fmtDate card index ++ cardDescSegment card.desc

/-- `formatList` of `src/plugin/trello.ts`. -/
def formatListTs (list : TrelloList) (index : Nat) : String :=
  let status := if list.closed then "üî¥ Closed" else "üü¢ Open"
  toString (index + 1) ++ ". " ++ status ++ " " ++ list.name ++ "\n   ID: " ++ list.id

/-- `formatBoard` of `src/plugin/trello.ts`. -/
def formatBoardTs (board : TrelloBoard) (index : Nat) : String :=
  toString (index + 1) ++ ". üìã " ++ board.name ++ "\n   ID: " ++ board.id ++
    "\n   URL: " ++ board.url

/-- Arguments of the list-cards tool. -/
structure ListArgs where
  listId : Option String
deriving DecidableEq

/-- Arguments of the add-card tool. -/
structure AddArgs where
  name : String
  desc : Option String
  listId : Option String
  due : Option String
  labels : Option String
deriving DecidableEq

/-- Arguments of the update-card tool. -/
structure UpdateArgs where
  cardId : String
  name : Option String
  desc : Option String
  closed : Option Bool
  listId : Option String
deriving DecidableEq

/-- Arguments of the delete / mark-done tools. -/
structure CardArgs where
  cardId : String
deriving DecidableEq

/-- One optional body field guarded by JS truthiness
(`if (args.x) params.x = args.x`). -/
def optField (key : String) (v : Option String) : Body :=
  match truthyOpt v with
  | some s => [(key, JVal.str s)]
  | none => []

/-- The PUT body built by both update-card variants (their field-assembly
code is identical): name, desc, closed, idList, each only when its argument
is truthy (`closed` whenever it is not `undefined`). -/
def updateParams (args : UpdateArgs) : Body :=
  optField "name" args.name ++ optField "desc" args.desc ++
  (match args.closed with
   | some b => [("closed", JVal.bool b)]
   | none => []) ++
  optField "idList" args.listId

/-- The POST body built by both add-card variants: target list and name
always, then desc, due and the split-and-trimmed label list when truthy. -/
def addParams (targetListId : String) (args : AddArgs) : Body :=
  [("idList", JVal.str targetListId), ("name", JVal.str args.name)] ++
  optField "desc" args.desc ++ optField "due" args.due ++
  (match truthyOpt args.labels with
   | some ls => [("idLabels", JVal.arr ((ls.splitOn ",").map String.trim))]
   | none => [])

/-! ### Tool operations, `src/unnamed/part_000` variant (results returned
as strings).  Each returns the output string and the requests issued. -/

/-- `trello_list` of part_000. -/
def trello_list (ctx : Ctx) (env : Env) (args : ListArgs) (fmtDate : String → String)
    (remote : Remote) : String × List Request :=
  match getConfig env ctx with
  | .error e => ("❌ Failed to list cards: " ++ e, [])
  | .ok config =>
    let listId := truthyOpt args.listId
    let path := match listId with
      | some l => "/lists/" ++ l ++ "/cards"
      | none => "/boards/" ++ config.boardId ++ "/cards"
    let qp : List (String × String) := match listId with
      | some _ => []
      | none => [("fields", "name,desc,url,shortLink,idList,closed,due,labels")]
    match trelloFetch config path "GET" none qp remote.cards with
    | (.error e, reqs) => ("❌ Failed to list cards: " ++ e, reqs)
    | (.ok cards, reqs) =>
      if cards.length == 0 then ("📭 No cards found.", reqs)
      else
        ("📋 Found " ++ toString cards.length ++ " card(s):\n\n" ++
          String.intercalate "\n\n" (cards.enum.map fun p => formatCard fmtDate p.2 p.1), reqs)

/-- `trello_add` of part_000. -/
def trello_add (ctx : Ctx) (env : Env) (args : AddArgs) (remote : Remote) :
    String × List Request :=
  match getConfig env ctx with
  | .error e => ("❌ Failed to create card: " ++ e, [])
  | .ok config =>
    match truthyOpt (jsOr args.listId config.defaultListId) with
    | none => ("⚠️ No list ID provided and no default list configured.", [])
    | some targetListId =>
      match trelloFetch config "/cards" "POST" (some (addParams targetListId args)) [] remote.card with
      | (.error e, reqs) => ("❌ Failed to create card: " ++ e, reqs)
      | (.ok card, reqs) =>
        ("✅ Created card: " ++ card.name ++ " (" ++ card.shortLink ++ ")", reqs)

/-- `trello_update` of part_000 (parsed response discarded). -/
def trello_update (ctx : Ctx) (env : Env) (args : UpdateArgs) (remote : Remote) :
    String × List Request :=
  match getConfig env ctx with
  | .error e => ("❌ Failed to update card: " ++ e, [])
  | .ok config =>
    match trelloFetch config ("/cards/" ++ args.cardId) "PUT" (some (updateParams args)) [] remote.free with
    | (.error e, reqs) => ("❌ Failed to update card: " ++ e, reqs)
    | (.ok _, reqs) => ("✅ Updated card " ++ args.cardId, reqs)

/-- `trello_delete` of part_000. -/
def trello_delete (ctx : Ctx) (env : Env) (args : CardArgs) (remote : Remote) :
    String × List Request :=
  match getConfig env ctx with
  | .error e => ("❌ Failed to delete card: " ++ e, [])
  | .ok config =>
    match trelloFetch config ("/cards/" ++ args.cardId) "DELETE" none [] remote.free with
    | (.error e, reqs) => ("❌ Failed to delete card: " ++ e, reqs)
    | (.ok _, reqs) => ("🗑️ Permanently deleted card: " ++ args.cardId, reqs)

/-- `trello_boards` of part_000.  Note: unlike the trello.ts variant this
one has no empty-collection check. -/
def trello_boards (ctx : Ctx) (env : Env) (remote : Remote) : String × List Request :=
  match getConfig env ctx with
  | .error e => ("❌ Failed to list boards: " ++ e, [])
  | .ok config =>
    match trelloFetch config "/members/me/boards" "GET" none [("fields", "name,url")] remote.boards with
    | (.error e, reqs) => ("❌ Failed to list boards: " ++ e, reqs)
    | (.ok boards, reqs) =>
      ("📋 Found " ++ toString boards.length ++ " board(s):\n\n" ++
        String.intercalate "\n\n" (boards.enum.map fun p => formatBoard p.2 p.1), reqs)

/-- `trello_lists` of part_000.  No empty-collection check either. -/
def trello_lists (ctx : Ctx) (env : Env) (remote : Remote) : String × List Request :=
  match getConfig env ctx with
  | .error e => ("❌ Failed to list lists: " ++ e, [])
  | .ok config =>
    match trelloFetch config ("/boards/" ++ config.boardId ++ "/lists") "GET" none
        [("fields", "name,closed,pos")] remote.lists with
    | (.error e, reqs) => ("❌ Failed to list lists: " ++ e, reqs)
    | (.ok lists, reqs) =>
      ("📋 Found " ++ toString lists.length ++ " list(s):\n\n" ++
        String.intercalate "\n\n" (lists.enum.map fun p => formatList p.2 p.1), reqs)

/-- `trello_done` of part_000 (parsed response discarded). -/
def trello_done (ctx : Ctx) (env : Env) (args : CardArgs) (remote : Remote) :
    String × List Request :=
  match getConfig env ctx with
  | .error e => ("❌ Failed to mark card as done: " ++ e, [])
  | .ok config =>
    match trelloFetch config ("/cards/" ++ args.cardId) "PUT" (some [("closed", JVal.bool true)]) [] remote.free with
    | (.error e, reqs) => ("❌ Failed to mark card as done: " ++ e, reqs)
    | (.ok _, reqs) => ("✅ Marked card as done: " ++ args.cardId, reqs)

/-- Static setup text of part_000's `trello_setup`. -/
def setupText : String :=
  "\n🎯 TRELLO PLUGIN SETUP\n========================\n\n1. GET API KEY: https://trello.com/app-key\n2. GET API TOKEN: https://trello.com/1/authorize?expiration=never&scope=read,write&response_type=token&name=OpenCode&key=YOUR_API_KEY\n3. GET BOARD ID: From Trello URL (trello.com/b/BOARD_ID/...)\n\nAdd to your environment:\nTRELLO_API_KEY=...\nTRELLO_API_TOKEN=...\nTRELLO_BOARD_ID=...\n"

/-- `trello_setup` of part_000: static text, no configuration resolution,
no request. -/
def trello_setup : String × List Request := (setupText, [])

/-! ### Tool operations, `src/plugin/trello.ts` variant (results logged
through the host context).  Each returns the list of log entries emitted
and the requests issued.  All string literals reproduce the double-encoded
glyph sequences stored in that file, written as unicode escapes. -/

/-- Log level of a `context.log.*` call. -/
inductive LogLevel where
  | success
  | error
  | warn
  | info
deriving DecidableEq

/-- One `context.log.*` call: level and message. -/
structure Log where
  level : LogLevel
  msg : String
deriving DecidableEq

/-- The double-encoded failure glyph each trello.ts error line starts
with. -/
def failGlyphTs : String := "‚ùå"

/-- `trelloList.execute` of trello.ts.  Its board-cards path is the
single-quoted source literal, so the board identifier placeholder is NOT
interpolated; and its `fields` filter object is passed in the
`RequestInit` position of `trelloFetch`, never reaching the URL. -/
def trelloListTs (ctx : Ctx) (env : Env) (args : ListArgs) (fmtDate : String → String)
    (remote : Remote) : List Log × List Request :=
  match getConfigTs env ctx with
  | .error e => ([⟨.error, "‚ùå Failed to list cards: " ++ e⟩], [])
  | .ok config =>
    let listId := truthyOpt args.listId
    let path := match listId with
      | some l => "/lists/" ++ l ++ "/cards"
      | none => "/boards/$\x7bconfig.boardId\x7d/cards"
    match trelloFetchTs config path "GET" none remote.cards with
    | (.error e, reqs) => ([⟨.error, "‚ùå Failed to list cards: " ++ e⟩], reqs)
    | (.ok cards, reqs) =>
      if cards.length == 0 then ([⟨.success, "üì≠ No cards found."⟩], reqs)
      else
        ([⟨.success, "üìã Found " ++ toString cards.length ++ " card(s):\n\n" ++
          String.intercalate "\n\n" (cards.enum.map fun p => formatCardTs fmtDate p.2 p.1)⟩], reqs)

/-- `trelloAdd.execute` of trello.ts. -/
def trelloAddTs (ctx : Ctx) (env : Env) (args : AddArgs) (remote : Remote) :
    List Log × List Request :=
  match getConfigTs env ctx with
  | .error e => ([⟨.error, "‚ùå Failed to create card: " ++ e⟩], [])
  | .ok config =>
    match truthyOpt (jsOr args.listId config.defaultListId) with
    | none =>
      ([⟨.warn, "‚ö†Ô∏è  No list ID provided and no default list configured. Use /trello-lists to see available lists."⟩], [])
    | some targetListId =>
      match trelloFetchTs config "/cards" "POST" (some (addParams targetListId args)) remote.card with
      | (.error e, reqs) => ([⟨.error, "‚ùå Failed to create card: " ++ e⟩], reqs)
      | (.ok card, reqs) =>
        ([⟨.success, "‚úÖ Created card:\n" ++ "   Name: " ++ card.name ++ "\n" ++
          "   ID: " ++ card.shortLink ++ "\n" ++ "   List: " ++ targetListId ++ "\n" ++
          "   URL: " ++ card.url⟩], reqs)

/-- `trelloUpdate.execute` of trello.ts (uses the parsed card's url in its
success message and summarizes the changes). -/
def trelloUpdateTs (ctx : Ctx) (env : Env) (args : UpdateArgs) (remote : Remote) :
    List Log × List Request :=
  match getConfigTs env ctx with
  | .error e => ([⟨.error, "‚ùå Failed to update card: " ++ e⟩], [])
  | .ok config =>
    match trelloFetchTs config ("/cards/" ++ args.cardId) "PUT" (some (updateParams args)) remote.card with
    | (.error e, reqs) => ([⟨.error, "‚ùå Failed to update card: " ++ e⟩], reqs)
    | (.ok card, reqs) =>
      let updates : List String :=
        (match truthyOpt args.name with
         | some s => ["name ‚Üí \"" ++ s ++ "\""]
         | none => []) ++
        (match truthyOpt args.desc with
         | some _ => ["description updated"]
         | none => []) ++
        (match args.closed with
         | some b => [if b then "marked as done" else "reopened"]
         | none => []) ++
        (match truthyOpt args.listId with
         | some l => ["moved to list " ++ l]
         | none => [])
      let joined := String.intercalate ", " updates
      ([⟨.success, "‚úÖ Updated card " ++ args.cardId ++ ":\n" ++
        "   Changes: " ++ (if joined == "" then "none" else joined) ++ "\n" ++
        "   URL: " ++ card.url⟩], reqs)

/-- `trelloDelete.execute` of trello.ts. -/
def trelloDeleteTs (ctx : Ctx) (env : Env) (args : CardArgs) (remote : Remote) :
    List Log × List Request :=
  match getConfigTs env ctx with
  | .error e => ([⟨.error, "‚ùå Failed to delete card: " ++ e⟩], [])
  | .ok config =>
    match trelloFetchTs config ("/cards/" ++ args.cardId) "DELETE" none remote.free with
    | (.error e, reqs) => ([⟨.error, "‚ùå Failed to delete card: " ++ e⟩], reqs)
    | (.ok _, reqs) =>
      ([⟨.success, "üóëÔ∏è  Permanently deleted card: " ++ args.cardId⟩], reqs)

/-- `trelloBoards.execute` of trello.ts (its `fields` filter is likewise
passed in the options position and dropped; this variant does have the
empty-collection check). -/
def trelloBoardsTs (ctx : Ctx) (env : Env) (remote : Remote) : List Log × List Request :=
  match getConfigTs env ctx with
  | .error e => ([⟨.error, "‚ùå Failed to list boards: " ++ e⟩], [])
  | .ok config =>
    match trelloFetchTs config "/members/me/boards" "GET" none remote.boards with
    | (.error e, reqs) => ([⟨.error, "‚ùå Failed to list boards: " ++ e⟩], reqs)
    | (.ok boards, reqs) =>
      if boards.length == 0 then ([⟨.success, "üì≠ No boards found."⟩], reqs)
      else
        ([⟨.success, "üìã Found " ++ toString boards.length ++ " board(s):\n\n" ++
           String.intercalate "\n\n" (boards.enum.map fun p => formatBoardTs p.2 p.1)⟩,
          ⟨.info, "\nüí° To use a board, set TRELLO_BOARD_ID environment variable."⟩], reqs)

/-- `trelloLists.execute` of trello.ts (board id correctly interpolated in
this operation; `fields` filter dropped as above). -/
def trelloListsTs (ctx : Ctx) (env : Env) (remote : Remote) : List Log × List Request :=
  match getConfigTs env ctx with
  | .error e => ([⟨.error, "‚ùå Failed to list lists: " ++ e⟩], [])
  | .ok config =>
    match trelloFetchTs config ("/boards/" ++ config.boardId ++ "/lists") "GET" none remote.lists with
    | (.error e, reqs) => ([⟨.error, "‚ùå Failed to list lists: " ++ e⟩], reqs)
    | (.ok lists, reqs) =>
      if lists.length == 0 then ([⟨.success, "üì≠ No lists found."⟩], reqs)
      else
        ([⟨.success, "üìã Found " ++ toString lists.length ++ " list(s):\n\n" ++
           String.intercalate "\n\n" (lists.enum.map fun p => formatListTs p.2 p.1)⟩,
          ⟨.info, "\nüí° Use a list ID with /trello-add or set TRELLO_DEFAULT_LIST_ID."⟩], reqs)

/-- `trelloDone.execute` of trello.ts (uses the parsed card's name). -/
def trelloDoneTs (ctx : Ctx) (env : Env) (args : CardArgs) (remote : Remote) :
    List Log × List Request :=
  match getConfigTs env ctx with
  | .error e => ([⟨.error, "‚ùå Failed to mark card as done: " ++ e⟩], [])
  | .ok config =>
    match trelloFetchTs config ("/cards/" ++ args.cardId) "PUT" (some [("closed", JVal.bool true)]) remote.card with
    | (.error e, reqs) => ([⟨.error, "‚ùå Failed to mark card as done: " ++ e⟩], reqs)
    | (.ok card, reqs) =>
      ([⟨.success, "‚úÖ Marked card as done: " ++ card.name ++ " (" ++ args.cardId ++ ")"⟩], reqs)

/-- Static setup text of trello.ts's `trelloSetup` (glyph double-encoded as
stored in the file). -/
def setupTextTs : String :=
  "\nüéØ TRELLO PLUGIN SETUP\n========================\n\n1. GET API KEY\n   Visit: https://trello.com/app-key\n\n2. GET API TOKEN\n   Visit: https://trello.com/1/authorize?expiration=never&scope=read,write&response_type=token&name=OpenCode&key=YOUR_API_KEY\n\n3. GET BOARD ID\n   Open any Trello board in your browser\n   URL format: https://trello.com/b/BOARD_ID/board-name\n   Copy the BOARD_ID from the URL\n\n4. GET DEFAULT LIST ID\n   Run /trello-lists to see all lists\n   Copy the ID of the list you want as default\n\n5. SET ENVIRONMENT VARIABLES\n   Add these to your ~/.bashrc, ~/.zshrc, or shell config:\n\n   export TRELLO_API_KEY=\"your_api_key_here\"\n   export TRELLO_API_TOKEN=\"your_api_token_here\"\n   export TRELLO_BOARD_ID=\"your_board_id_here\"\n   export TRELLO_DEFAULT_LIST_ID=\"your_default_list_id_here\"\n\n6. RELOAD YOUR SHELL\n   source ~/.bashrc\n   # or\n   source ~/.zshrc\n\n7. VERIFY SETUP\n   Run: /trello-lists\n\n   If successful, you'll see your Trello lists!\n        "

/-- `trelloSetup.execute` of trello.ts: one info log, no configuration
resolution, no request. -/
def trelloSetupTs : List Log × List Request := ([⟨.info, setupTextTs⟩], [])

/-! ### The tool registries -/

/-- One invocation of a named tool with its arguments — the registry of the
eight operations each variant exposes. -/
inductive Invocation where
  | list : ListArgs → Invocation
  | add : AddArgs → Invocation
  | update : UpdateArgs → Invocation
  | delete : CardArgs → Invocation
  | boards : Invocation
  | lists : Invocation
  | done : CardArgs → Invocation
  | setup : Invocation
deriving DecidableEq

/-- Dispatch an invocation in the part_000 variant. -/
def runTool (ctx : Ctx) (env : Env) (fmtDate : String → String) (remote : Remote) :
    Invocation → String × List Request
  | .list a => trello_list ctx env a fmtDate remote
  | .add a => trello_add ctx env a remote
  | .update a => trello_update ctx env a remote
  | .delete a => trello_delete ctx env a remote
  | .boards => trello_boards ctx env remote
  | .lists => trello_lists ctx env remote
  | .done a => trello_done ctx env a remote
  | .setup => trello_setup

/-- Dispatch an invocation in the trello.ts variant. -/
def runToolTs (ctx : Ctx) (env : Env) (fmtDate : String → String) (remote : Remote) :
    Invocation → List Log × List Request
  | .list a => trelloListTs ctx env a fmtDate remote
  | .add a => trelloAddTs ctx env a remote
  | .update a => trelloUpdateTs ctx env a remote
  | .delete a => trelloDeleteTs ctx env a remote
  | .boards => trelloBoardsTs ctx env remote
  | .lists => trelloListsTs ctx env remote
  | .done a => trelloDoneTs ctx env a remote
  | .setup => trelloSetupTs

/-! ### Infrastructure for the theorems: substring containment, config
characterization, transport-error predicates. -/

/-- `needle` occurs as a contiguous substring of `hay`. -/
def strContains (hay needle : String) : Prop :=
  needle.toList <:+: hay.toList

instance strContainsDecidable (hay needle : String) : Decidable (strContains hay needle) :=
  inferInstanceAs (Decidable (needle.toList <:+: hay.toList))

/-- `hay` starts with `pre`. -/
def strStartsWith (hay pre : String) : Prop :=
  pre.toList <+: hay.toList

instance strStartsWithDecidable (hay pre : String) : Decidable (strStartsWith hay pre) :=
  inferInstanceAs (Decidable (pre.toList <+: hay.toList))

/-- The required-field test of both `getConfig` variants. -/
def missing (env : Env) : Bool :=
  !(truthy env.TRELLO_API_KEY) || !(truthy env.TRELLO_API_TOKEN) || !(truthy env.TRELLO_BOARD_ID)

/-- The configuration value both variants return when all required fields
are present. -/
def configOf (env : Env) : TrelloConfig :=
  ⟨env.TRELLO_API_KEY.getD "", env.TRELLO_API_TOKEN.getD "",
   env.TRELLO_BOARD_ID.getD "", env.TRELLO_DEFAULT_LIST_ID⟩

/-- A transport oracle that fails every call with a network-level error
carrying message `m`. -/
def remoteAllNetErr (remote : Remote) (m : String) : Prop :=
  (∀ r, remote.cards r = .networkError m) ∧ (∀ r, remote.card r = .networkError m) ∧
  (∀ r, remote.boards r = .networkError m) ∧ (∀ r, remote.lists r = .networkError m) ∧
  (∀ r, remote.free r = .networkError m)

/-- A transport oracle that answers every call with HTTP status `status`
and response body `body`, not ok. -/
def remoteAllHttpErr (remote : Remote) (status : Nat) (body : String) : Prop :=
  (∀ r, remote.cards r = .httpError status body) ∧ (∀ r, remote.card r = .httpError status body) ∧
  (∀ r, remote.boards r = .httpError status body) ∧ (∀ r, remote.lists r = .httpError status body) ∧
  (∀ r, remote.free r = .httpError status body)

/-- A transport oracle answering every collection call with the empty
collection (card calls get `emptyCard`). -/
def emptyCard : TrelloCard := ⟨"", "", "", "", "", "", false, none, []⟩

/-- Concrete oracle: every call fails with a network error `m`. -/
def netErrRemote (m : String) : Remote :=
  ⟨fun _ => .networkError m, fun _ => .networkError m, fun _ => .networkError m,
   fun _ => .networkError m, fun _ => .networkError m⟩

/-- Concrete oracle: every call yields HTTP `status` with body `body`. -/
def httpErrRemote (status : Nat) (body : String) : Remote :=
  ⟨fun _ => .httpError status body, fun _ => .httpError status body,
   fun _ => .httpError status body, fun _ => .httpError status body,
   fun _ => .httpError status body⟩

/-- Concrete oracle: every collection call succeeds with an empty
collection. -/
def emptyRemote : Remote :=
  ⟨fun _ => .success [], fun _ => .success emptyCard, fun _ => .success [],
   fun _ => .success [], fun _ => .success ()⟩

/-- An output string is a failure line for error message `msg` (part_000
variant): it starts with the failure glyph and carries the message text. -/
def failureLine (out msg : String) : Prop :=
  strStartsWith out "❌" ∧ strContains out msg

/-- A trello.ts log transcript is a single failure line for `msg`: exactly
one `log.error` call whose text starts with the (double-encoded) failure
glyph and carries the message text. -/
def failureLogTs (logs : List Log) (msg : String) : Prop :=
  ∃ s, logs = [⟨.error, s⟩] ∧ strStartsWith s failGlyphTs ∧ strContains s msg

/-- The error string a fetch outcome is converted to, if any: the
network-error message itself or the status-and-body error line. -/
def fetchErr {α : Type} : FetchResult α → Option String
  | .success _ => none
  | .httpError status body => some ("Trello API error (" ++ toString status ++ "): " ++ body)
  | .networkError m => some m

/-- Fixed host context and environment used by the concrete evaluations. -/
def ctx0 : Ctx := ⟨[]⟩

/-- Environment with all required variables set and board id `abc123`. -/
def envBoard : Env := ⟨some "k", some "t", some "abc123", none⟩

/-- A card with a 101-character description. -/
def cardLongC7 : TrelloCard :=
  ⟨"id1", "Long", "aaaaaaaaaaaaaaaaaaaaaaaaaaaaaaaaaaaaaaaaaaaaaaaaaaaaaaaaaaaaaaaaaaaaaaaaaaaaaaaaaaaaaaaaaaaaaaaaaaaaa",
   "u", "sl", "lst", false, none, []⟩

/-- A card with a 2-character description. -/
def cardShortC7 : TrelloCard := ⟨"id2", "Short", "hi", "u", "sl", "lst", false, none, []⟩

/-- Field-level contract of the PUT body both update variants submit: a
supplied non-empty string field appears with its value, an unsupplied or
empty-string field is absent, a supplied closed flag always appears
(including `false`), and no other key occurs. -/
def updateBodySpec (args : UpdateArgs) (l : Body) : Prop :=
  (∀ s, args.name = some s → s ≠ "" → ("name", JVal.str s) ∈ l) ∧
  ((args.name = none ∨ args.name = some "") → ∀ v, ("name", v) ∉ l) ∧
  (∀ s, args.desc = some s → s ≠ "" → ("desc", JVal.str s) ∈ l) ∧
  ((args.desc = none ∨ args.desc = some "") → ∀ v, ("desc", v) ∉ l) ∧
  (∀ v, args.closed = some v → ("closed", JVal.bool v) ∈ l) ∧
  (args.closed = none → ∀ v, ("closed", v) ∉ l) ∧
  (∀ s, args.listId = some s → s ≠ "" → ("idList", JVal.str s) ∈ l) ∧
  ((args.listId = none ∨ args.listId = some "") → ∀ v, ("idList", v) ∉ l) ∧
  (∀ p, p ∈ l → p.1 = "name" ∨ p.1 = "desc" ∨ p.1 = "closed" ∨ p.1 = "idList")

/-- Update arguments supplying the empty string as the new name. -/
def updArgsC9 : UpdateArgs := ⟨"c1", some "", none, none, none⟩

/-- Update arguments used by the C9 witness. -/
def updArgsC9W : UpdateArgs := ⟨"c7", some "N", none, some false, none⟩

/-- Add-card arguments with no explicit list id. -/
def addArgsC6 : AddArgs := ⟨"task", none, none, none, none⟩

/-- Environment with every variable unset. -/
def envNone : Env := ⟨none, none, none, none⟩

/-! ### Theorems -/

/-- Character data of a concatenation. -/
theorem strToList_append (a b : String) : (a ++ b).toList = a.toList ++ b.toList := by
  cases a
  cases b
  rfl

theorem strContains_intro {hay needle : String} (pre suf : String)
    (e : hay.toList = pre.toList ++ needle.toList ++ suf.toList) : strContains hay needle :=
  ⟨pre.toList, suf.toList, e.symm⟩

/-- Appending anything to the right keeps a substring occurrence. -/
theorem strContains_append_right {a n : String} (b : String) (h : strContains a n) :
    strContains (a ++ b) n := by
  obtain ⟨s, t, e⟩ := h
  exact ⟨s, t ++ b.toList, by rw [strToList_append, ← e]; simp⟩

/-- A string contains its own right-hand append part. -/
theorem strContains_right (a n : String) : strContains (a ++ n) n :=
  ⟨a.toList, [], by simp [strToList_append]⟩

theorem strStartsWith_intro {hay pre : String} (rest : String)
    (e : hay.toList = pre.toList ++ rest.toList) : strStartsWith hay pre :=
  ⟨rest.toList, e.symm⟩

/-- Appending anything to the right keeps a prefix. -/
theorem strStartsWith_append_right {p g : String} (e : String) (h : strStartsWith p g) :
    strStartsWith (p ++ e) g := by
  obtain ⟨t, ht⟩ := h
  exact ⟨t ++ e.toList, by rw [strToList_append, ← ht]; simp⟩

theorem getConfig_eq (env : Env) (ctx : Ctx) :
    getConfig env ctx =
      if missing env then .error configIncompleteMsg else .ok (configOf env) := rfl

theorem getConfigTs_eq (env : Env) (ctx : Ctx) :
    getConfigTs env ctx =
      if missing env then .error configIncompleteMsgTs else .ok (configOf env) := rfl

theorem netErrRemote_spec (m : String) : remoteAllNetErr (netErrRemote m) m :=
  ⟨fun _ => rfl, fun _ => rfl, fun _ => rfl, fun _ => rfl, fun _ => rfl⟩

theorem httpErrRemote_spec (status : Nat) (body : String) :
    remoteAllHttpErr (httpErrRemote status body) status body :=
  ⟨fun _ => rfl, fun _ => rfl, fun _ => rfl, fun _ => rfl, fun _ => rfl⟩

/-- Every part_000 failure branch has shape `prefix ++ msg`. -/
theorem failureLine_mk (p m : String) (h : strStartsWith p "❌") : failureLine (p ++ m) m :=
  ⟨strStartsWith_append_right m h, strContains_right p m⟩

theorem failureLogTs_mk (p m : String) (h : strStartsWith p failGlyphTs) :
    failureLogTs [⟨.error, p ++ m⟩] m :=
  ⟨p ++ m, rfl, strStartsWith_append_right m h, strContains_right p m⟩

/-- Appending anything to the left keeps a substring occurrence. -/
theorem strContains_append_left {b n : String} (a : String) (h : strContains b n) :
    strContains (a ++ b) n := by
  obtain ⟨s, t, e⟩ := h
  exact ⟨a.toList ++ s, t, by rw [strToList_append, ← e]; simp [List.append_assoc]⟩

theorem trelloFetch_error {α : Type} {config path method body qp} {call : Request → FetchResult α}
    {e : String} (h : fetchErr (call (reqOf config path method body qp)) = some e) :
    trelloFetch config path method body qp call = (.error e, [reqOf config path method body qp]) := by
  rcases hc : call (reqOf config path method body qp) with v | ⟨s, b⟩ | m
  · rw [hc] at h; simp [fetchErr] at h
  · rw [hc] at h; simp only [fetchErr, Option.some.injEq] at h; subst h
    simp only [trelloFetch, hc]
  · rw [hc] at h; simp only [fetchErr, Option.some.injEq] at h; subst h
    simp only [trelloFetch, hc]

theorem trelloFetch_success {α : Type} {config path method body qp} {call : Request → FetchResult α}
    {v : α} (h : call (reqOf config path method body qp) = .success v) :
    trelloFetch config path method body qp call = (.ok v, [reqOf config path method body qp]) := by
  simp only [trelloFetch, h]

theorem trelloFetch_reqs {α : Type} (config path method body qp) (call : Request → FetchResult α) :
    (trelloFetch config path method body qp call).2 = [reqOf config path method body qp] := by
  rcases hc : call (reqOf config path method body qp) with v | ⟨s, b⟩ | m <;>
    simp only [trelloFetch, hc]

theorem trelloFetchTs_error {α : Type} {config path method body} {call : Request → FetchResult α}
    {e : String} (h : fetchErr (call (reqOf config path method body [])) = some e) :
    trelloFetchTs config path method body call = (.error e, [reqOf config path method body []]) := by
  rcases hc : call (reqOf config path method body []) with v | ⟨s, b⟩ | m
  · rw [hc] at h; simp [fetchErr] at h
  · rw [hc] at h; simp only [fetchErr, Option.some.injEq] at h; subst h
    simp only [trelloFetchTs, hc]
  · rw [hc] at h; simp only [fetchErr, Option.some.injEq] at h; subst h
    simp only [trelloFetchTs, hc]

theorem trelloFetchTs_success {α : Type} {config path method body} {call : Request → FetchResult α}
    {v : α} (h : call (reqOf config path method body []) = .success v) :
    trelloFetchTs config path method body call = (.ok v, [reqOf config path method body []]) := by
  simp only [trelloFetchTs, h]

theorem trelloFetchTs_reqs {α : Type} (config path method body) (call : Request → FetchResult α) :
    (trelloFetchTs config path method body call).2 = [reqOf config path method body []] := by
  rcases hc : call (reqOf config path method body []) with v | ⟨s, b⟩ | m <;>
    simp only [trelloFetchTs, hc]

theorem trello_list_missing (ctx : Ctx) (env : Env) (a : ListArgs) (f : String → String)
    (r : Remote) (hm : missing env = true) :
    trello_list ctx env a f r = ("❌ Failed to list cards: " ++ configIncompleteMsg, []) := by
  simp [trello_list, getConfig_eq, hm]

theorem trello_list_fetch_error (ctx : Ctx) (env : Env) (a : ListArgs) (f : String → String)
    (remote : Remote) (e : String) (hm : missing env = false)
    (he : ∀ r', fetchErr (remote.cards r') = some e) :
    ∃ rq, trello_list ctx env a f remote = ("❌ Failed to list cards: " ++ e, [rq]) := by
  rcases ht : truthyOpt a.listId with _ | l <;>
    simp only [trello_list, getConfig_eq, hm, Bool.false_eq_true, if_false, ht,
      trelloFetch_error (he _)] <;>
    exact ⟨_, rfl⟩

theorem trello_list_reqs_le (ctx : Ctx) (env : Env) (a : ListArgs) (f : String → String)
    (remote : Remote) : (trello_list ctx env a f remote).2.length ≤ 1 := by
  cases hm : missing env with
  | true => simp [trello_list_missing ctx env a f remote hm]
  | false =>
    rcases ht : truthyOpt a.listId with _ | l <;>
      simp only [trello_list, getConfig_eq, hm, Bool.false_eq_true, if_false, ht] <;>
      rcases hf : trelloFetch _ _ _ _ _ _ with ⟨res, reqs⟩ <;>
      have hr2 : reqs = [_] := (congrArg Prod.snd hf).symm.trans (trelloFetch_reqs _ _ _ _ _ _) <;>
      cases res <;> simp only [hr2] <;> (try split) <;> simp

theorem trello_update_missing (ctx : Ctx) (env : Env) (a : UpdateArgs) (remote : Remote)
    (hm : missing env = true) :
    trello_update ctx env a remote = ("\u274c Failed to update card: " ++ configIncompleteMsg, []) := by
  simp [trello_update, getConfig_eq, hm]

theorem trello_update_fetch_error (ctx : Ctx) (env : Env) (a : UpdateArgs) (remote : Remote) (e : String)
    (hm : missing env = false) (he : ∀ r', fetchErr (remote.free r') = some e) :
    ∃ rq, trello_update ctx env a remote = ("\u274c Failed to update card: " ++ e, [rq]) := by
  simp only [trello_update, getConfig_eq, hm, Bool.false_eq_true, if_false, trelloFetch_error (he _)]
  exact ⟨_, rfl⟩

theorem trello_update_reqs_le (ctx : Ctx) (env : Env) (a : UpdateArgs) (remote : Remote) :
    (trello_update ctx env a remote).2.length ≤ 1 := by
  cases hm : missing env with
  | true => simp [trello_update_missing ctx env a remote hm]
  | false =>
    simp only [trello_update, getConfig_eq, hm, Bool.false_eq_true, if_false]
    rcases hf : trelloFetch _ _ _ _ _ _ with ⟨res, reqs⟩
    have hr2 : reqs = [_] := (congrArg Prod.snd hf).symm.trans (trelloFetch_reqs _ _ _ _ _ _)
    cases res <;> simp only [hr2] <;> simp

theorem trello_delete_missing (ctx : Ctx) (env : Env) (a : CardArgs) (remote : Remote)
    (hm : missing env = true) :
    trello_delete ctx env a remote = ("\u274c Failed to delete card: " ++ configIncompleteMsg, []) := by
  simp [trello_delete, getConfig_eq, hm]

theorem trello_delete_fetch_error (ctx : Ctx) (env : Env) (a : CardArgs) (remote : Remote) (e : String)
    (hm : missing env = false) (he : ∀ r', fetchErr (remote.free r') = some e) :
    ∃ rq, trello_delete ctx env a remote = ("\u274c Failed to delete card: " ++ e, [rq]) := by
  simp only [trello_delete, getConfig_eq, hm, Bool.false_eq_true, if_false, trelloFetch_error (he _)]
  exact ⟨_, rfl⟩

theorem trello_delete_reqs_le (ctx : Ctx) (env : Env) (a : CardArgs) (remote : Remote) :
    (trello_delete ctx env a remote).2.length ≤ 1 := by
  cases hm : missing env with
  | true => simp [trello_delete_missing ctx env a remote hm]
  | false =>
    simp only [trello_delete, getConfig_eq, hm, Bool.false_eq_true, if_false]
    rcases hf : trelloFetch _ _ _ _ _ _ with ⟨res, reqs⟩
    have hr2 : reqs = [_] := (congrArg Prod.snd hf).symm.trans (trelloFetch_reqs _ _ _ _ _ _)
    cases res <;> simp only [hr2] <;> simp

theorem trello_done_missing (ctx : Ctx) (env : Env) (a : CardArgs) (remote : Remote)
    (hm : missing env = true) :
    trello_done ctx env a remote = ("\u274c Failed to mark card as done: " ++ configIncompleteMsg, []) := by
  simp [trello_done, getConfig_eq, hm]

theorem trello_done_fetch_error (ctx : Ctx) (env : Env) (a : CardArgs) (remote : Remote) (e : String)
    (hm : missing env = false) (he : ∀ r', fetchErr (remote.free r') = some e) :
    ∃ rq, trello_done ctx env a remote = ("\u274c Failed to mark card as done: " ++ e, [rq]) := by
  simp only [trello_done, getConfig_eq, hm, Bool.false_eq_true, if_false, trelloFetch_error (he _)]
  exact ⟨_, rfl⟩

theorem trello_done_reqs_le (ctx : Ctx) (env : Env) (a : CardArgs) (remote : Remote) :
    (trello_done ctx env a remote).2.length ≤ 1 := by
  cases hm : missing env with
  | true => simp [trello_done_missing ctx env a remote hm]
  | false =>
    simp only [trello_done, getConfig_eq, hm, Bool.false_eq_true, if_false]
    rcases hf : trelloFetch _ _ _ _ _ _ with ⟨res, reqs⟩
    have hr2 : reqs = [_] := (congrArg Prod.snd hf).symm.trans (trelloFetch_reqs _ _ _ _ _ _)
    cases res <;> simp only [hr2] <;> simp

theorem trello_boards_missing (ctx : Ctx) (env : Env) (remote : Remote)
    (hm : missing env = true) :
    trello_boards ctx env remote = ("\u274c Failed to list boards: " ++ configIncompleteMsg, []) := by
  simp [trello_boards, getConfig_eq, hm]

theorem trello_boards_fetch_error (ctx : Ctx) (env : Env) (remote : Remote) (e : String)
    (hm : missing env = false) (he : ∀ r', fetchErr (remote.boards r') = some e) :
    ∃ rq, trello_boards ctx env remote = ("\u274c Failed to list boards: " ++ e, [rq]) := by
  simp only [trello_boards, getConfig_eq, hm, Bool.false_eq_true, if_false, trelloFetch_error (he _)]
  exact ⟨_, rfl⟩

theorem trello_boards_reqs_le (ctx : Ctx) (env : Env) (remote : Remote) :
    (trello_boards ctx env remote).2.length ≤ 1 := by
  cases hm : missing env with
  | true => simp [trello_boards_missing ctx env remote hm]
  | false =>
    simp only [trello_boards, getConfig_eq, hm, Bool.false_eq_true, if_false]
    rcases hf : trelloFetch _ _ _ _ _ _ with ⟨res, reqs⟩
    have hr2 : reqs = [_] := (congrArg Prod.snd hf).symm.trans (trelloFetch_reqs _ _ _ _ _ _)
    cases res <;> simp only [hr2] <;> simp

theorem trello_lists_missing (ctx : Ctx) (env : Env) (remote : Remote)
    (hm : missing env = true) :
    trello_lists ctx env remote = ("\u274c Failed to list lists: " ++ configIncompleteMsg, []) := by
  simp [trello_lists, getConfig_eq, hm]

theorem trello_lists_fetch_error (ctx : Ctx) (env : Env) (remote : Remote) (e : String)
    (hm : missing env = false) (he : ∀ r', fetchErr (remote.lists r') = some e) :
    ∃ rq, trello_lists ctx env remote = ("\u274c Failed to list lists: " ++ e, [rq]) := by
  simp only [trello_lists, getConfig_eq, hm, Bool.false_eq_true, if_false, trelloFetch_error (he _)]
  exact ⟨_, rfl⟩

theorem trello_lists_reqs_le (ctx : Ctx) (env : Env) (remote : Remote) :
    (trello_lists ctx env remote).2.length ≤ 1 := by
  cases hm : missing env with
  | true => simp [trello_lists_missing ctx env remote hm]
  | false =>
    simp only [trello_lists, getConfig_eq, hm, Bool.false_eq_true, if_false]
    rcases hf : trelloFetch _ _ _ _ _ _ with ⟨res, reqs⟩
    have hr2 : reqs = [_] := (congrArg Prod.snd hf).symm.trans (trelloFetch_reqs _ _ _ _ _ _)
    cases res <;> simp only [hr2] <;> simp

theorem trelloUpdateTs_missing (ctx : Ctx) (env : Env) (a : UpdateArgs) (remote : Remote)
    (hm : missing env = true) :
    trelloUpdateTs ctx env a remote = ([⟨LogLevel.error, "\u201a\u00f9\u00e5 Failed to update card: " ++ configIncompleteMsgTs⟩], []) := by
  simp [trelloUpdateTs, getConfigTs_eq, hm]

theorem trelloUpdateTs_fetch_error (ctx : Ctx) (env : Env) (a : UpdateArgs) (remote : Remote) (e : String)
    (hm : missing env = false) (he : ∀ r', fetchErr (remote.card r') = some e) :
    ∃ rq, trelloUpdateTs ctx env a remote = ([⟨LogLevel.error, "\u201a\u00f9\u00e5 Failed to update card: " ++ e⟩], [rq]) := by
  simp only [trelloUpdateTs, getConfigTs_eq, hm, Bool.false_eq_true, if_false, trelloFetchTs_error (he _)]
  exact ⟨_, rfl⟩

theorem trelloUpdateTs_reqs_le (ctx : Ctx) (env : Env) (a : UpdateArgs) (remote : Remote) :
    (trelloUpdateTs ctx env a remote).2.length ≤ 1 := by
  cases hm : missing env with
  | true => simp [trelloUpdateTs_missing ctx env a remote hm]
  | false =>
    simp only [trelloUpdateTs, getConfigTs_eq, hm, Bool.false_eq_true, if_false]
    rcases hf : trelloFetchTs _ _ _ _ _ with ⟨res, reqs⟩
    have hr2 : reqs = [_] := (congrArg Prod.snd hf).symm.trans (trelloFetchTs_reqs _ _ _ _ _)
    cases res <;> simp only [hr2] <;> simp

theorem trelloDeleteTs_missing (ctx : Ctx) (env : Env) (a : CardArgs) (remote : Remote)
    (hm : missing env = true) :
    trelloDeleteTs ctx env a remote = ([⟨LogLevel.error, "\u201a\u00f9\u00e5 Failed to delete card: " ++ configIncompleteMsgTs⟩], []) := by
  simp [trelloDeleteTs, getConfigTs_eq, hm]

theorem trelloDeleteTs_fetch_error (ctx : Ctx) (env : Env) (a : CardArgs) (remote : Remote) (e : String)
    (hm : missing env = false) (he : ∀ r', fetchErr (remote.free r') = some e) :
    ∃ rq, trelloDeleteTs ctx env a remote = ([⟨LogLevel.error, "\u201a\u00f9\u00e5 Failed to delete card: " ++ e⟩], [rq]) := by
  simp only [trelloDeleteTs, getConfigTs_eq, hm, Bool.false_eq_true, if_false, trelloFetchTs_error (he _)]
  exact ⟨_, rfl⟩

theorem trelloDeleteTs_reqs_le (ctx : Ctx) (env : Env) (a : CardArgs) (remote : Remote) :
    (trelloDeleteTs ctx env a remote).2.length ≤ 1 := by
  cases hm : missing env with
  | true => simp [trelloDeleteTs_missing ctx env a remote hm]
  | false =>
    simp only [trelloDeleteTs, getConfigTs_eq, hm, Bool.false_eq_true, if_false]
    rcases hf : trelloFetchTs _ _ _ _ _ with ⟨res, reqs⟩
    have hr2 : reqs = [_] := (congrArg Prod.snd hf).symm.trans (trelloFetchTs_reqs _ _ _ _ _)
    cases res <;> simp only [hr2] <;> simp

theorem trelloDoneTs_missing (ctx : Ctx) (env : Env) (a : CardArgs) (remote : Remote)
    (hm : missing env = true) :
    trelloDoneTs ctx env a remote = ([⟨LogLevel.error, "\u201a\u00f9\u00e5 Failed to mark card as done: " ++ configIncompleteMsgTs⟩], []) := by
  simp [trelloDoneTs, getConfigTs_eq, hm]

theorem trelloDoneTs_fetch_error (ctx : Ctx) (env : Env) (a : CardArgs) (remote : Remote) (e : String)
    (hm : missing env = false) (he : ∀ r', fetchErr (remote.card r') = some e) :
    ∃ rq, trelloDoneTs ctx env a remote = ([⟨LogLevel.error, "\u201a\u00f9\u00e5 Failed to mark card as done: " ++ e⟩], [rq]) := by
  simp only [trelloDoneTs, getConfigTs_eq, hm, Bool.false_eq_true, if_false, trelloFetchTs_error (he _)]
  exact ⟨_, rfl⟩

theorem trelloDoneTs_reqs_le (ctx : Ctx) (env : Env) (a : CardArgs) (remote : Remote) :
    (trelloDoneTs ctx env a remote).2.length ≤ 1 := by
  cases hm : missing env with
  | true => simp [trelloDoneTs_missing ctx env a remote hm]
  | false =>
    simp only [trelloDoneTs, getConfigTs_eq, hm, Bool.false_eq_true, if_false]
    rcases hf : trelloFetchTs _ _ _ _ _ with ⟨res, reqs⟩
    have hr2 : reqs = [_] := (congrArg Prod.snd hf).symm.trans (trelloFetchTs_reqs _ _ _ _ _)
    cases res <;> simp only [hr2] <;> simp

theorem trelloBoardsTs_missing (ctx : Ctx) (env : Env) (remote : Remote)
    (hm : missing env = true) :
    trelloBoardsTs ctx env remote = ([⟨LogLevel.error, "\u201a\u00f9\u00e5 Failed to list boards: " ++ configIncompleteMsgTs⟩], []) := by
  simp [trelloBoardsTs, getConfigTs_eq, hm]

theorem trelloBoardsTs_fetch_error (ctx : Ctx) (env : Env) (remote : Remote) (e : String)
    (hm : missing env = false) (he : ∀ r', fetchErr (remote.boards r') = some e) :
    ∃ rq, trelloBoardsTs ctx env remote = ([⟨LogLevel.error, "\u201a\u00f9\u00e5 Failed to list boards: " ++ e⟩], [rq]) := by
  simp only [trelloBoardsTs, getConfigTs_eq, hm, Bool.false_eq_true, if_false, trelloFetchTs_error (he _)]
  exact ⟨_, rfl⟩

theorem trelloBoardsTs_reqs_le (ctx : Ctx) (env : Env) (remote : Remote) :
    (trelloBoardsTs ctx env remote).2.length ≤ 1 := by
  cases hm : missing env with
  | true => simp [trelloBoardsTs_missing ctx env remote hm]
  | false =>
    simp only [trelloBoardsTs, getConfigTs_eq, hm, Bool.false_eq_true, if_false]
    rcases hf : trelloFetchTs _ _ _ _ _ with ⟨res, reqs⟩
    have hr2 : reqs = [_] := (congrArg Prod.snd hf).symm.trans (trelloFetchTs_reqs _ _ _ _ _)
    cases res <;> simp only [hr2] <;> (try split) <;> simp

theorem trelloListsTs_missing (ctx : Ctx) (env : Env) (remote : Remote)
    (hm : missing env = true) :
    trelloListsTs ctx env remote = ([⟨LogLevel.error, "\u201a\u00f9\u00e5 Failed to list lists: " ++ configIncompleteMsgTs⟩], []) := by
  simp [trelloListsTs, getConfigTs_eq, hm]

theorem trelloListsTs_fetch_error (ctx : Ctx) (env : Env) (remote : Remote) (e : String)
    (hm : missing env = false) (he : ∀ r', fetchErr (remote.lists r') = some e) :
    ∃ rq, trelloListsTs ctx env remote = ([⟨LogLevel.error, "\u201a\u00f9\u00e5 Failed to list lists: " ++ e⟩], [rq]) := by
  simp only [trelloListsTs, getConfigTs_eq, hm, Bool.false_eq_true, if_false, trelloFetchTs_error (he _)]
  exact ⟨_, rfl⟩

theorem trelloListsTs_reqs_le (ctx : Ctx) (env : Env) (remote : Remote) :
    (trelloListsTs ctx env remote).2.length ≤ 1 := by
  cases hm : missing env with
  | true => simp [trelloListsTs_missing ctx env remote hm]
  | false =>
    simp only [trelloListsTs, getConfigTs_eq, hm, Bool.false_eq_true, if_false]
    rcases hf : trelloFetchTs _ _ _ _ _ with ⟨res, reqs⟩
    have hr2 : reqs = [_] := (congrArg Prod.snd hf).symm.trans (trelloFetchTs_reqs _ _ _ _ _)
    cases res <;> simp only [hr2] <;> (try split) <;> simp

theorem trello_add_missing (ctx : Ctx) (env : Env) (a : AddArgs) (remote : Remote)
    (hm : missing env = true) :
    trello_add ctx env a remote = ("\u274c Failed to create card: " ++ configIncompleteMsg, []) := by
  simp [trello_add, getConfig_eq, hm]

theorem trello_add_warn (ctx : Ctx) (env : Env) (a : AddArgs) (remote : Remote)
    (hm : missing env = false)
    (ht : truthyOpt (jsOr a.listId (configOf env).defaultListId) = none) :
    trello_add ctx env a remote = ("\u26a0\ufe0f No list ID provided and no default list configured.", []) := by
  simp only [trello_add, getConfig_eq, hm, Bool.false_eq_true, if_false, ht]

theorem trello_add_fetch_error (ctx : Ctx) (env : Env) (a : AddArgs) (remote : Remote)
    (e tgt : String) (hm : missing env = false)
    (ht : truthyOpt (jsOr a.listId (configOf env).defaultListId) = some tgt)
    (he : ∀ r', fetchErr (remote.card r') = some e) :
    ∃ rq, trello_add ctx env a remote = ("\u274c Failed to create card: " ++ e, [rq]) := by
  simp only [trello_add, getConfig_eq, hm, Bool.false_eq_true, if_false, ht, trelloFetch_error (he _)]
  exact ⟨_, rfl⟩

theorem trello_add_reqs_le (ctx : Ctx) (env : Env) (a : AddArgs) (remote : Remote) :
    (trello_add ctx env a remote).2.length ≤ 1 := by
  cases hm : missing env with
  | true => simp [trello_add_missing ctx env a remote hm]
  | false =>
    rcases ht : truthyOpt (jsOr a.listId (configOf env).defaultListId) with _ | tgt
    · simp [trello_add_warn ctx env a remote hm ht]
    · simp only [trello_add, getConfig_eq, hm, Bool.false_eq_true, if_false, ht]
      rcases hf : trelloFetch _ _ _ _ _ _ with ⟨res, reqs⟩
      have hr2 : reqs = [_] := (congrArg Prod.snd hf).symm.trans (trelloFetch_reqs _ _ _ _ _ _)
      cases res <;> simp only [hr2] <;> simp

theorem trelloAddTs_missing (ctx : Ctx) (env : Env) (a : AddArgs) (remote : Remote)
    (hm : missing env = true) :
    trelloAddTs ctx env a remote = ([⟨LogLevel.error, "\u201a\u00f9\u00e5 Failed to create card: " ++ configIncompleteMsgTs⟩], []) := by
  simp [trelloAddTs, getConfigTs_eq, hm]

theorem trelloAddTs_warn (ctx : Ctx) (env : Env) (a : AddArgs) (remote : Remote)
    (hm : missing env = false)
    (ht : truthyOpt (jsOr a.listId (configOf env).defaultListId) = none) :
    trelloAddTs ctx env a remote = ([⟨LogLevel.warn, "\u201a\u00f6\u2020\u00d4\u220f\u00e8  No list ID provided and no default list configured. Use /trello-lists to see available lists."⟩], []) := by
  simp only [trelloAddTs, getConfigTs_eq, hm, Bool.false_eq_true, if_false, ht]

theorem trelloAddTs_fetch_error (ctx : Ctx) (env : Env) (a : AddArgs) (remote : Remote)
    (e tgt : String) (hm : missing env = false)
    (ht : truthyOpt (jsOr a.listId (configOf env).defaultListId) = some tgt)
    (he : ∀ r', fetchErr (remote.card r') = some e) :
    ∃ rq, trelloAddTs ctx env a remote = ([⟨LogLevel.error, "\u201a\u00f9\u00e5 Failed to create card: " ++ e⟩], [rq]) := by
  simp only [trelloAddTs, getConfigTs_eq, hm, Bool.false_eq_true, if_false, ht, trelloFetchTs_error (he _)]
  exact ⟨_, rfl⟩

theorem trelloAddTs_reqs_le (ctx : Ctx) (env : Env) (a : AddArgs) (remote : Remote) :
    (trelloAddTs ctx env a remote).2.length ≤ 1 := by
  cases hm : missing env with
  | true => simp [trelloAddTs_missing ctx env a remote hm]
  | false =>
    rcases ht : truthyOpt (jsOr a.listId (configOf env).defaultListId) with _ | tgt
    · simp [trelloAddTs_warn ctx env a remote hm ht]
    · simp only [trelloAddTs, getConfigTs_eq, hm, Bool.false_eq_true, if_false, ht]
      rcases hf : trelloFetchTs _ _ _ _ _ with ⟨res, reqs⟩
      have hr2 : reqs = [_] := (congrArg Prod.snd hf).symm.trans (trelloFetchTs_reqs _ _ _ _ _)
      cases res <;> simp only [hr2] <;> simp

theorem trelloListTs_missing (ctx : Ctx) (env : Env) (a : ListArgs) (f : String → String)
    (remote : Remote) (hm : missing env = true) :
    trelloListTs ctx env a f remote = ([⟨LogLevel.error, "\u201a\u00f9\u00e5 Failed to list cards: " ++ configIncompleteMsgTs⟩], []) := by
  simp [trelloListTs, getConfigTs_eq, hm]

theorem trelloListTs_fetch_error (ctx : Ctx) (env : Env) (a : ListArgs) (f : String → String)
    (remote : Remote) (e : String) (hm : missing env = false)
    (he : ∀ r', fetchErr (remote.cards r') = some e) :
    ∃ rq, trelloListTs ctx env a f remote = ([⟨LogLevel.error, "\u201a\u00f9\u00e5 Failed to list cards: " ++ e⟩], [rq]) := by
  rcases ht : truthyOpt a.listId with _ | l <;>
    simp only [trelloListTs, getConfigTs_eq, hm, Bool.false_eq_true, if_false, ht,
      trelloFetchTs_error (he _)] <;>
    exact ⟨_, rfl⟩

theorem trelloListTs_reqs_le (ctx : Ctx) (env : Env) (a : ListArgs) (f : String → String)
    (remote : Remote) : (trelloListTs ctx env a f remote).2.length ≤ 1 := by
  cases hm : missing env with
  | true => simp [trelloListTs_missing ctx env a f remote hm]
  | false =>
    rcases ht : truthyOpt a.listId with _ | l <;>
      simp only [trelloListTs, getConfigTs_eq, hm, Bool.false_eq_true, if_false, ht] <;>
      rcases hf : trelloFetchTs _ _ _ _ _ with ⟨res, reqs⟩ <;>
      have hr2 : reqs = [_] := (congrArg Prod.snd hf).symm.trans (trelloFetchTs_reqs _ _ _ _ _) <;>
      cases res <;> simp only [hr2] <;> (try split) <;> simp

theorem strAppend_empty (a : String) : a ++ "" = a := by
  cases a with
  | mk l => show String.mk (l ++ []) = String.mk l; rw [List.append_nil]

theorem cardDescSegment_long {d : String} (h : 100 < strLen d) :
    cardDescSegment d = "\n   " ++ strTake d 100 ++ "..." := by
  have hd : d ≠ "" := by
    intro h0
    subst h0
    simp [strLen] at h
  simp [cardDescSegment, hd, h]

theorem cardDescSegment_short {d : String} (h : strLen d ≤ 100) :
    cardDescSegment d = if d = "" then "" else "\n   " ++ d := by
  by_cases hd : d = ""
  · simp [cardDescSegment, hd]
  · have h2 : ¬ (100 < strLen d) := not_lt.mpr h
    have ht : strTake d 100 = d := by
      cases d with
      | mk l =>
        show String.mk (l.take 100) = String.mk l
        rw [List.take_of_length_le]
        exact h
    simp [cardDescSegment, hd, h2, ht, strAppend_empty]

/-- C10: configuration resolution depends only on the environment, not on
the host-supplied context: both `getConfig` variants return identical
results (value or error) for arbitrary different context values under the
same environment. -/
theorem c10_config_independent_of_context (env : Env) (c₁ c₂ : Ctx) :
    getConfig env c₁ = getConfig env c₂ ∧ getConfigTs env c₁ = getConfigTs env c₂ :=
  ⟨rfl, rfl⟩

/-- C7: for a description longer than 100 characters, both `formatCard`
variants emit exactly the first 100 characters followed by the truncation
marker (and that text occurs in the output); for a description of at most
100 characters, the description appears whole and the formatter appends no
truncation marker after it. -/
theorem c7_description_truncation (fmtDate : String → String) (card : TrelloCard) (index : Nat) :
    (100 < strLen card.desc →
      formatCard fmtDate card index =
        formatCardLead fmtDate card index ++ ("\n   " ++ strTake card.desc 100 ++ "...") ∧
      formatCardTs fmtDate card index =
        formatCardLeadTs fmtDate card index ++ ("\n   " ++ strTake card.desc 100 ++ "...") ∧
      strContains (formatCard fmtDate card index) (strTake card.desc 100 ++ "...") ∧
      strContains (formatCardTs fmtDate card index) (strTake card.desc 100 ++ "...")) ∧
    (strLen card.desc ≤ 100 →
      formatCard fmtDate card index =
        formatCardLead fmtDate card index ++
          (if card.desc = "" then "" else "\n   " ++ card.desc) ∧
      formatCardTs fmtDate card index =
        formatCardLeadTs fmtDate card index ++
          (if card.desc = "" then "" else "\n   " ++ card.desc)) := by
  constructor
  · intro h
    have hseg := cardDescSegment_long h
    refine ⟨by simp only [formatCard, hseg], by simp only [formatCardTs, hseg], ?_, ?_⟩
    · simp only [formatCard, hseg]
      apply strContains_intro (formatCardLead fmtDate card index ++ "\n   ") ""
      simp [strToList_append, List.append_assoc]
    · simp only [formatCardTs, hseg]
      apply strContains_intro (formatCardLeadTs fmtDate card index ++ "\n   ") ""
      simp [strToList_append, List.append_assoc]
  · intro h
    have hseg := cardDescSegment_short h
    exact ⟨by simp only [formatCard, hseg], by simp only [formatCardTs, hseg]⟩

theorem c7_description_truncation_witness :
    (100 < strLen cardLongC7.desc ∧
      formatCard id cardLongC7 0 =
        formatCardLead id cardLongC7 0 ++ ("\n   " ++ strTake cardLongC7.desc 100 ++ "...")) ∧
    (strLen cardShortC7.desc ≤ 100 ∧
      formatCard id cardShortC7 0 =
        formatCardLead id cardShortC7 0 ++
          (if cardShortC7.desc = "" then "" else "\n   " ++ cardShortC7.desc)) :=
  ⟨⟨by decide, ((c7_description_truncation id cardLongC7 0).1 (by decide)).1⟩,
   ⟨by decide, ((c7_description_truncation id cardShortC7 0).2 (by decide)).1⟩⟩

/-- C2: with no list filter, the part_000 list-cards operation issues a GET
whose path embeds the configured board id, and with a filter a GET to that
list's cards path; the trello.ts variant instead issues its GET to the
uninterpolated literal `/boards/$\x7bconfig.boardId\x7d/cards` (the source
uses a single-quoted string, not a template literal), whose path does not
contain the configured board id `abc123`. -/
theorem c2_board_cards_path :
    ((trello_list ctx0 envBoard ⟨none⟩ id emptyRemote).2.map fun r => (r.method, r.path)) =
      [("GET", "/boards/abc123/cards")] ∧
    strContains "/boards/abc123/cards" "abc123" ∧
    ((trello_list ctx0 envBoard ⟨some "l7"⟩ id emptyRemote).2.map fun r => (r.method, r.path)) =
      [("GET", "/lists/l7/cards")] ∧
    ((trelloListTs ctx0 envBoard ⟨none⟩ id emptyRemote).2.map fun r => (r.method, r.path)) =
      [("GET", "/boards/$\x7bconfig.boardId\x7d/cards")] ∧
    ¬ strContains "/boards/$\x7bconfig.boardId\x7d/cards" "abc123" :=
  ⟨rfl, by decide, rfl, rfl, by decide⟩

/-- C4: the part_000 transport appends the authentication pair and the
per-call filter parameters to the query and sets the JSON headers; the
trello.ts transport sets the same headers but its query carries only the
authentication pair — the `fields` filter its callers pass in the options
position never reaches the URL. -/
theorem c4_query_auth_filters_headers :
    ((trello_boards ctx0 envBoard emptyRemote).2.map fun r => (r.query, r.headers)) =
      [([("key", "k"), ("token", "t"), ("fields", "name,url")], jsonHeaders)] ∧
    ((trello_list ctx0 envBoard ⟨none⟩ id emptyRemote).2.map fun r => r.query) =
      [[("key", "k"), ("token", "t"),
        ("fields", "name,desc,url,shortLink,idList,closed,due,labels")]] ∧
    ((trelloBoardsTs ctx0 envBoard emptyRemote).2.map fun r => (r.query, r.headers)) =
      [([("key", "k"), ("token", "t")], jsonHeaders)] ∧
    (((trelloBoardsTs ctx0 envBoard emptyRemote).2.all
        fun r => !(r.query.contains ("fields", "name,url"))) = true) :=
  ⟨rfl, rfl, rfl, by decide⟩

/-- C3 counterexample: with a valid configuration and a remote returning
zero boards, the part_000 boards operation does NOT emit the designated
"none found" message — it emits the count header with zero entries; the
part_000 lists operation behaves the same. -/
theorem c3_zero_collections_counterexample :
    (trello_boards ctx0 envBoard emptyRemote).1 = "📋 Found 0 board(s):\n\n" ∧
    (trello_boards ctx0 envBoard emptyRemote).1 ≠ "📭 No boards found." ∧
    ¬ strContains (trello_boards ctx0 envBoard emptyRemote).1 "No boards found" ∧
    (trello_lists ctx0 envBoard emptyRemote).1 = "📋 Found 0 list(s):\n\n" ∧
    ¬ strContains (trello_lists ctx0 envBoard emptyRemote).1 "No lists found" :=
  ⟨rfl, by decide, by decide, rfl, by decide⟩

/-- C3 (amended): on an empty collection, the list-cards operations of both
variants and the trello.ts boards/lists operations emit the designated
"none found" message, while the part_000 boards/lists operations emit the
count-zero header; in every case the output is a constant independent of
the collection elements, so the formatter is applied to no element. -/
theorem c3_empty_collections (ctx : Ctx) (k t b : String) (d : Option String)
    (fmtDate : String → String) (remote : Remote) (env : Env)
    (henv : env = ⟨some k, some t, some b, d⟩) (hk : k ≠ "") (ht : t ≠ "") (hb : b ≠ "")
    (hcards : ∀ r, remote.cards r = .success [])
    (hboards : ∀ r, remote.boards r = .success [])
    (hlists : ∀ r, remote.lists r = .success []) :
    (∀ a, (trello_list ctx env a fmtDate remote).1 = "📭 No cards found.") ∧
    (∀ a, (trelloListTs ctx env a fmtDate remote).1 =
      [⟨.success, "üì≠ No cards found."⟩]) ∧
    (trelloBoardsTs ctx env remote).1 =
      [⟨.success, "üì≠ No boards found."⟩] ∧
    (trelloListsTs ctx env remote).1 =
      [⟨.success, "üì≠ No lists found."⟩] ∧
    (trello_boards ctx env remote).1 = "📋 Found 0 board(s):\n\n" ∧
    (trello_lists ctx env remote).1 = "📋 Found 0 list(s):\n\n" := by
  subst henv
  have hm : missing (⟨some k, some t, some b, d⟩ : Env) = false := by
    simp [missing, truthy, hk, ht, hb]
  refine ⟨?_, ?_, ?_, ?_, ?_, ?_⟩
  · intro a
    rcases hl : truthyOpt a.listId with _ | l <;>
      simp [trello_list, getConfig_eq, hm, hl, trelloFetch_success (hcards _)]
  · intro a
    rcases hl : truthyOpt a.listId with _ | l <;>
      simp [trelloListTs, getConfigTs_eq, hm, hl, trelloFetchTs_success (hcards _)]
  · simp [trelloBoardsTs, getConfigTs_eq, hm, trelloFetchTs_success (hboards _)]
  · simp [trelloListsTs, getConfigTs_eq, hm, trelloFetchTs_success (hlists _)]
  · simp only [trello_boards, getConfig_eq, hm, Bool.false_eq_true, if_false,
      trelloFetch_success (hboards _)]
    rfl
  · simp only [trello_lists, getConfig_eq, hm, Bool.false_eq_true, if_false,
      trelloFetch_success (hlists _)]
    rfl

theorem c3_empty_collections_witness :
    (trello_list ctx0 envBoard ⟨none⟩ id emptyRemote).1 = "📭 No cards found." ∧
    (trelloBoardsTs ctx0 envBoard emptyRemote).1 =
      [⟨.success, "üì≠ No boards found."⟩] ∧
    (trello_boards ctx0 envBoard emptyRemote).1 = "📋 Found 0 board(s):\n\n" := by
  have h := c3_empty_collections ctx0 "k" "t" "abc123" none id emptyRemote envBoard rfl
    (by decide) (by decide) (by decide) (fun _ => rfl) (fun _ => rfl) (fun _ => rfl)
  exact ⟨h.1 ⟨none⟩, h.2.2.1, h.2.2.2.2.1⟩

/-- C6: with all required configuration present, an add-card call with no
explicit list id falls back to the configured default list — absent a
truthy default, both variants return the precondition warning and issue no
request; with a default configured, both issue a single POST to `/cards`
whose body assigns the default list id to `idList`. -/
theorem c6_add_card_default_list (ctx : Ctx) (k t b : String) (d : Option String)
    (remote : Remote) (env : Env) (args : AddArgs)
    (henv : env = ⟨some k, some t, some b, d⟩) (hk : k ≠ "") (ht : t ≠ "") (hb : b ≠ "")
    (hnolist : args.listId = none) :
    (truthy d = false →
      trello_add ctx env args remote =
        ("⚠️ No list ID provided and no default list configured.", []) ∧
      trelloAddTs ctx env args remote =
        ([⟨.warn, "‚ö†Ô∏è  No list ID provided and no default list configured. Use /trello-lists to see available lists."⟩], [])) ∧
    (∀ dl, d = some dl → dl ≠ "" →
      (∃ rq body, (trello_add ctx env args remote).2 = [rq] ∧
        rq.method = "POST" ∧ rq.path = "/cards" ∧ rq.body = some body ∧
        ("idList", JVal.str dl) ∈ body) ∧
      (∃ rq body, (trelloAddTs ctx env args remote).2 = [rq] ∧
        rq.method = "POST" ∧ rq.path = "/cards" ∧ rq.body = some body ∧
        ("idList", JVal.str dl) ∈ body)) := by
  subst henv
  have hm : missing (⟨some k, some t, some b, d⟩ : Env) = false := by
    simp [missing, truthy, hk, ht, hb]
  constructor
  · intro hd
    have hjs : truthyOpt (jsOr args.listId (configOf ⟨some k, some t, some b, d⟩).defaultListId) = none := by
      rcases d with _ | s
      · simp [jsOr, truthyOpt, hnolist, configOf]
      · have hs : s = "" := by
          by_contra hne
          simp [truthy, hne] at hd
        simp [jsOr, truthyOpt, hnolist, configOf, hs]
    exact ⟨trello_add_warn ctx _ args remote hm hjs, trelloAddTs_warn ctx _ args remote hm hjs⟩
  · intro dl hdl hne
    subst hdl
    have hjs : truthyOpt (jsOr args.listId (configOf ⟨some k, some t, some b, some dl⟩).defaultListId) = some dl := by
      simp [jsOr, truthyOpt, hnolist, configOf, hne]
    constructor
    · have h2 : (trello_add ctx (⟨some k, some t, some b, some dl⟩ : Env) args remote).2 =
          [reqOf (configOf ⟨some k, some t, some b, some dl⟩) "/cards" "POST"
            (some (addParams dl args)) []] := by
        simp only [trello_add, getConfig_eq, hm, Bool.false_eq_true, if_false, hjs]
        rcases hf : trelloFetch _ _ _ _ _ _ with ⟨res, reqs⟩
        have hr2 : reqs = [_] := (congrArg Prod.snd hf).symm.trans (trelloFetch_reqs _ _ _ _ _ _)
        cases res <;> simp only [hr2]
      exact ⟨_, addParams dl args, h2, rfl, rfl, rfl, by simp [addParams]⟩
    · have h2 : (trelloAddTs ctx (⟨some k, some t, some b, some dl⟩ : Env) args remote).2 =
          [reqOf (configOf ⟨some k, some t, some b, some dl⟩) "/cards" "POST"
            (some (addParams dl args)) []] := by
        simp only [trelloAddTs, getConfigTs_eq, hm, Bool.false_eq_true, if_false, hjs]
        rcases hf : trelloFetchTs _ _ _ _ _ with ⟨res, reqs⟩
        have hr2 : reqs = [_] := (congrArg Prod.snd hf).symm.trans (trelloFetchTs_reqs _ _ _ _ _)
        cases res <;> simp only [hr2]
      exact ⟨_, addParams dl args, h2, rfl, rfl, rfl, by simp [addParams]⟩

/-- Membership characterization of the PUT body both update variants
submit. -/
theorem mem_updateParams_iff (args : UpdateArgs) (p : String × JVal) :
    p ∈ updateParams args ↔
      ((∃ s, truthyOpt args.name = some s ∧ p = ("name", JVal.str s)) ∨
       (∃ s, truthyOpt args.desc = some s ∧ p = ("desc", JVal.str s)) ∨
       (∃ b, args.closed = some b ∧ p = ("closed", JVal.bool b)) ∨
       (∃ s, truthyOpt args.listId = some s ∧ p = ("idList", JVal.str s))) := by
  unfold updateParams optField
  rcases h1 : truthyOpt args.name with _ | a <;>
    rcases h2 : truthyOpt args.desc with _ | b <;>
    rcases h3 : args.closed with _ | c <;>
    rcases h4 : truthyOpt args.listId with _ | d <;>
    simp [h1, h2, h3, h4, or_assoc]

theorem updateParams_spec (args : UpdateArgs) : updateBodySpec args (updateParams args) := by
  refine ⟨?_, ?_, ?_, ?_, ?_, ?_, ?_, ?_, ?_⟩
  · intro s hs hne
    rw [mem_updateParams_iff]
    exact Or.inl ⟨s, by simp [truthyOpt, hs, hne], rfl⟩
  · intro h v hmem
    rw [mem_updateParams_iff] at hmem
    have hn : truthyOpt args.name = none := by rcases h with h | h <;> simp [truthyOpt, h]
    rcases hmem with ⟨s, hts, hp⟩ | ⟨s, hts, hp⟩ | ⟨c, hc, hp⟩ | ⟨s, hts, hp⟩
    · rw [hn] at hts; cases hts
    · simp at hp
    · simp at hp
    · simp at hp
  · intro s hs hne
    rw [mem_updateParams_iff]
    exact Or.inr (Or.inl ⟨s, by simp [truthyOpt, hs, hne], rfl⟩)
  · intro h v hmem
    rw [mem_updateParams_iff] at hmem
    have hn : truthyOpt args.desc = none := by rcases h with h | h <;> simp [truthyOpt, h]
    rcases hmem with ⟨s, hts, hp⟩ | ⟨s, hts, hp⟩ | ⟨c, hc, hp⟩ | ⟨s, hts, hp⟩
    · simp at hp
    · rw [hn] at hts; cases hts
    · simp at hp
    · simp at hp
  · intro v hv
    rw [mem_updateParams_iff]
    exact Or.inr (Or.inr (Or.inl ⟨v, hv, rfl⟩))
  · intro h v hmem
    rw [mem_updateParams_iff] at hmem
    rcases hmem with ⟨s, hts, hp⟩ | ⟨s, hts, hp⟩ | ⟨c, hc, hp⟩ | ⟨s, hts, hp⟩
    · simp at hp
    · simp at hp
    · rw [h] at hc; cases hc
    · simp at hp
  · intro s hs hne
    rw [mem_updateParams_iff]
    exact Or.inr (Or.inr (Or.inr ⟨s, by simp [truthyOpt, hs, hne], rfl⟩))
  · intro h v hmem
    rw [mem_updateParams_iff] at hmem
    have hn : truthyOpt args.listId = none := by rcases h with h | h <;> simp [truthyOpt, h]
    rcases hmem with ⟨s, hts, hp⟩ | ⟨s, hts, hp⟩ | ⟨c, hc, hp⟩ | ⟨s, hts, hp⟩
    · simp at hp
    · simp at hp
    · simp at hp
    · rw [hn] at hts; cases hts
  · intro p hp
    rw [mem_updateParams_iff] at hp
    rcases hp with ⟨s, _, hp⟩ | ⟨s, _, hp⟩ | ⟨c, _, hp⟩ | ⟨s, _, hp⟩ <;> subst hp <;> simp

/-- C9 (amended): both update variants issue exactly one PUT to the card's
path whose body is the partial-update parameter list: unsupplied fields are
absent, supplied non-empty string fields and any supplied closed flag
appear with their values, a supplied empty-string field is treated as
absent (JavaScript truthiness), and no other key occurs. -/
theorem c9_update_partial_body (ctx : Ctx) (k t b : String) (d : Option String)
    (remote : Remote) (env : Env) (args : UpdateArgs)
    (henv : env = ⟨some k, some t, some b, d⟩) (hk : k ≠ "") (ht : t ≠ "") (hb : b ≠ "") :
    ∃ rq rqTs,
      (trello_update ctx env args remote).2 = [rq] ∧
      (trelloUpdateTs ctx env args remote).2 = [rqTs] ∧
      rq.method = "PUT" ∧ rq.path = "/cards/" ++ args.cardId ∧
      rqTs.method = "PUT" ∧ rqTs.path = "/cards/" ++ args.cardId ∧
      rq.body = some (updateParams args) ∧ rqTs.body = some (updateParams args) ∧
      updateBodySpec args (updateParams args) := by
  subst henv
  have hm : missing (⟨some k, some t, some b, d⟩ : Env) = false := by
    simp [missing, truthy, hk, ht, hb]
  have h2 : (trello_update ctx (⟨some k, some t, some b, d⟩ : Env) args remote).2 =
      [reqOf (configOf ⟨some k, some t, some b, d⟩) ("/cards/" ++ args.cardId) "PUT"
        (some (updateParams args)) []] := by
    simp only [trello_update, getConfig_eq, hm, Bool.false_eq_true, if_false]
    rcases hf : trelloFetch _ _ _ _ _ _ with ⟨res, reqs⟩
    have hr2 : reqs = [_] := (congrArg Prod.snd hf).symm.trans (trelloFetch_reqs _ _ _ _ _ _)
    cases res <;> simp only [hr2]
  have h2ts : (trelloUpdateTs ctx (⟨some k, some t, some b, d⟩ : Env) args remote).2 =
      [reqOf (configOf ⟨some k, some t, some b, d⟩) ("/cards/" ++ args.cardId) "PUT"
        (some (updateParams args)) []] := by
    simp only [trelloUpdateTs, getConfigTs_eq, hm, Bool.false_eq_true, if_false]
    rcases hf : trelloFetchTs _ _ _ _ _ with ⟨res, reqs⟩
    have hr2 : reqs = [_] := (congrArg Prod.snd hf).symm.trans (trelloFetchTs_reqs _ _ _ _ _)
    cases res <;> simp only [hr2]
  exact ⟨_, _, h2, h2ts, rfl, rfl, rfl, rfl, rfl, rfl, updateParams_spec args⟩

/-- C9 counterexample: an update invocation that supplies the name field
with the empty string submits a body with no `name` entry at all — the
supplied field does not appear with its supplied value. -/
theorem c9_empty_name_counterexample :
    ((trello_update ctx0 envBoard updArgsC9 emptyRemote).2.map fun r => r.body) = [some []] ∧
    ((trelloUpdateTs ctx0 envBoard updArgsC9 emptyRemote).2.map fun r => r.body) = [some []] ∧
    updArgsC9.name = some "" ∧
    (∀ v, ("name", v) ∉ ([] : Body)) :=
  ⟨rfl, rfl, rfl, fun _ h => (List.not_mem_nil _ h)⟩

theorem c9_update_partial_body_witness :
    ∃ rq rqTs,
      (trello_update ctx0 envBoard updArgsC9W emptyRemote).2 = [rq] ∧
      (trelloUpdateTs ctx0 envBoard updArgsC9W emptyRemote).2 = [rqTs] ∧
      rq.method = "PUT" ∧ rq.path = "/cards/" ++ updArgsC9W.cardId ∧
      rqTs.method = "PUT" ∧ rqTs.path = "/cards/" ++ updArgsC9W.cardId ∧
      rq.body = some (updateParams updArgsC9W) ∧ rqTs.body = some (updateParams updArgsC9W) ∧
      updateBodySpec updArgsC9W (updateParams updArgsC9W) :=
  c9_update_partial_body ctx0 "k" "t" "abc123" none emptyRemote envBoard updArgsC9W rfl
    (by decide) (by decide) (by decide)

theorem c6_add_card_default_list_witness :
    (trello_add ctx0 ⟨some "k", some "t", some "b", none⟩ addArgsC6 emptyRemote =
      ("⚠️ No list ID provided and no default list configured.", [])) ∧
    (∃ rq body, (trello_add ctx0 ⟨some "k", some "t", some "b", some "dl9"⟩ addArgsC6 emptyRemote).2 = [rq] ∧
      rq.method = "POST" ∧ rq.path = "/cards" ∧ rq.body = some body ∧
      ("idList", JVal.str "dl9") ∈ body) := by
  constructor
  · exact ((c6_add_card_default_list ctx0 "k" "t" "b" none emptyRemote _ addArgsC6 rfl
      (by decide) (by decide) (by decide) rfl).1 (by decide)).1
  · exact (((c6_add_card_default_list ctx0 "k" "t" "b" (some "dl9") emptyRemote _ addArgsC6 rfl
      (by decide) (by decide) (by decide) rfl).2 "dl9" rfl (by decide)).1)

/-- C5 counterexample: under a fully missing configuration, the setup-help
operation of either variant yields its static instructions, not a
configuration error: its output is not a failure line (part_000) and not an
error log (trello.ts), so not EVERY operation yields the configuration
error. -/
theorem c5_setup_counterexample :
    runTool ctx0 envNone id emptyRemote .setup = (setupText, []) ∧
    ¬ failureLine setupText configIncompleteMsg ∧
    runToolTs ctx0 envNone id emptyRemote .setup = ([⟨.info, setupTextTs⟩], []) ∧
    ¬ failureLogTs [⟨.info, setupTextTs⟩] configIncompleteMsgTs := by
  refine ⟨rfl, ?_, rfl, ?_⟩
  · intro h
    exact absurd h.1 (by decide)
  · rintro ⟨s, hs, -, -⟩
    simp at hs

/-- Shared consequence: a part_000 configuration-error line names the three
required variables and points at the remediation text. -/
theorem confErr000_props (p : String) (hp : strStartsWith p "❌") :
    failureLine (p ++ configIncompleteMsg) configIncompleteMsg ∧
    strContains (p ++ configIncompleteMsg) "TRELLO_API_KEY" ∧
    strContains (p ++ configIncompleteMsg) "TRELLO_API_TOKEN" ∧
    strContains (p ++ configIncompleteMsg) "TRELLO_BOARD_ID" ∧
    strContains (p ++ configIncompleteMsg) "in your environment" :=
  ⟨failureLine_mk p _ hp,
   strContains_append_left p (by decide),
   strContains_append_left p (by decide),
   strContains_append_left p (by decide),
   strContains_append_left p (by decide)⟩

/-- Shared consequence: a trello.ts configuration-error log names the three
required variables and points at the setup command. -/
theorem confErrTs_props (p : String) (hp : strStartsWith p failGlyphTs) :
    failureLogTs [⟨.error, p ++ configIncompleteMsgTs⟩] configIncompleteMsgTs ∧
    ∀ l ∈ ([⟨.error, p ++ configIncompleteMsgTs⟩] : List Log),
      strContains l.msg "TRELLO_API_KEY" ∧ strContains l.msg "TRELLO_API_TOKEN" ∧
      strContains l.msg "TRELLO_BOARD_ID" ∧ strContains l.msg "Run /trello-setup for help." := by
  refine ⟨failureLogTs_mk p _ hp, ?_⟩
  intro l hl
  simp only [List.mem_singleton] at hl
  subst hl
  exact ⟨strContains_append_left p (by decide), strContains_append_left p (by decide),
    strContains_append_left p (by decide), strContains_append_left p (by decide)⟩

/-- Case-closing helper for the per-operation goals of the missing-config
theorem. -/
theorem c5_case {out000 : String × List Request} {outTs : List Log × List Request} {p pTs : String}
    (h0 : out000 = (p ++ configIncompleteMsg, []))
    (hTs : outTs = ([⟨.error, pTs ++ configIncompleteMsgTs⟩], []))
    (hp : strStartsWith p "❌") (hpTs : strStartsWith pTs failGlyphTs) :
    (failureLine out000.1 configIncompleteMsg ∧
     strContains out000.1 "TRELLO_API_KEY" ∧
     strContains out000.1 "TRELLO_API_TOKEN" ∧
     strContains out000.1 "TRELLO_BOARD_ID" ∧
     strContains out000.1 "in your environment" ∧
     out000.2 = []) ∧
    (failureLogTs outTs.1 configIncompleteMsgTs ∧
     (∀ l ∈ outTs.1, strContains l.msg "TRELLO_API_KEY" ∧ strContains l.msg "TRELLO_API_TOKEN" ∧
        strContains l.msg "TRELLO_BOARD_ID" ∧ strContains l.msg "Run /trello-setup for help.") ∧
     outTs.2 = []) := by
  subst h0
  subst hTs
  obtain ⟨q1, q2, q3, q4, q5⟩ := confErr000_props p hp
  obtain ⟨w1, w2⟩ := confErrTs_props pTs hpTs
  exact ⟨⟨q1, q2, q3, q4, q5, rfl⟩, ⟨w1, w2, rfl⟩⟩

/-- C5 (amended): with any required configuration variable missing, every
operation other than the static setup-help operation yields the
configuration error — a failure line naming the three required variables
and pointing at remediation — and issues no network request, in both
variants. -/
theorem c5_missing_config_error_before_network (inv : Invocation) (ctx : Ctx) (env : Env)
    (fmtDate : String → String) (remote : Remote)
    (hm : missing env = true) (hinv : inv ≠ Invocation.setup) :
    (failureLine (runTool ctx env fmtDate remote inv).1 configIncompleteMsg ∧
     strContains (runTool ctx env fmtDate remote inv).1 "TRELLO_API_KEY" ∧
     strContains (runTool ctx env fmtDate remote inv).1 "TRELLO_API_TOKEN" ∧
     strContains (runTool ctx env fmtDate remote inv).1 "TRELLO_BOARD_ID" ∧
     strContains (runTool ctx env fmtDate remote inv).1 "in your environment" ∧
     (runTool ctx env fmtDate remote inv).2 = []) ∧
    (failureLogTs (runToolTs ctx env fmtDate remote inv).1 configIncompleteMsgTs ∧
     (∀ l ∈ (runToolTs ctx env fmtDate remote inv).1,
        strContains l.msg "TRELLO_API_KEY" ∧ strContains l.msg "TRELLO_API_TOKEN" ∧
        strContains l.msg "TRELLO_BOARD_ID" ∧ strContains l.msg "Run /trello-setup for help.") ∧
     (runToolTs ctx env fmtDate remote inv).2 = []) := by
  cases inv with
  | setup => exact absurd rfl hinv
  | list a =>
    exact c5_case (trello_list_missing ctx env a fmtDate remote hm)
      (trelloListTs_missing ctx env a fmtDate remote hm) (by decide) (by decide)
  | add a =>
    exact c5_case (trello_add_missing ctx env a remote hm)
      (trelloAddTs_missing ctx env a remote hm) (by decide) (by decide)
  | update a =>
    exact c5_case (trello_update_missing ctx env a remote hm)
      (trelloUpdateTs_missing ctx env a remote hm) (by decide) (by decide)
  | delete a =>
    exact c5_case (trello_delete_missing ctx env a remote hm)
      (trelloDeleteTs_missing ctx env a remote hm) (by decide) (by decide)
  | boards =>
    exact c5_case (trello_boards_missing ctx env remote hm)
      (trelloBoardsTs_missing ctx env remote hm) (by decide) (by decide)
  | lists =>
    exact c5_case (trello_lists_missing ctx env remote hm)
      (trelloListsTs_missing ctx env remote hm) (by decide) (by decide)
  | done a =>
    exact c5_case (trello_done_missing ctx env a remote hm)
      (trelloDoneTs_missing ctx env a remote hm) (by decide) (by decide)

theorem c5_missing_config_witness :
    (failureLine (runTool ctx0 envNone id emptyRemote .boards).1 configIncompleteMsg ∧
     strContains (runTool ctx0 envNone id emptyRemote .boards).1 "TRELLO_API_KEY" ∧
     strContains (runTool ctx0 envNone id emptyRemote .boards).1 "TRELLO_API_TOKEN" ∧
     strContains (runTool ctx0 envNone id emptyRemote .boards).1 "TRELLO_BOARD_ID" ∧
     strContains (runTool ctx0 envNone id emptyRemote .boards).1 "in your environment" ∧
     (runTool ctx0 envNone id emptyRemote .boards).2 = []) ∧
    (failureLogTs (runToolTs ctx0 envNone id emptyRemote .boards).1 configIncompleteMsgTs ∧
     (∀ l ∈ (runToolTs ctx0 envNone id emptyRemote .boards).1,
        strContains l.msg "TRELLO_API_KEY" ∧ strContains l.msg "TRELLO_API_TOKEN" ∧
        strContains l.msg "TRELLO_BOARD_ID" ∧ strContains l.msg "Run /trello-setup for help.") ∧
     (runToolTs ctx0 envNone id emptyRemote .boards).2 = []) :=
  c5_missing_config_error_before_network .boards ctx0 envNone id emptyRemote (by decide) (by decide)

/-- C1: under any transport that fails at the network level with message
`m`, every operation of either variant catches the error: with a required
configuration variable missing, every non-setup operation produces a single
failure line carrying the configuration message; whenever any request was
actually issued, the operation's output is a single failure line starting
with the failure glyph and carrying `m`.  No error escapes: every
operation's result is a total textual value by construction. -/
theorem c1_failure_semantics (inv : Invocation) (ctx : Ctx) (env : Env)
    (fmtDate : String → String) (m : String) (remote : Remote)
    (hr : remoteAllNetErr remote m) :
    (missing env = true → inv ≠ Invocation.setup →
      failureLine (runTool ctx env fmtDate remote inv).1 configIncompleteMsg ∧
      failureLogTs (runToolTs ctx env fmtDate remote inv).1 configIncompleteMsgTs) ∧
    ((runTool ctx env fmtDate remote inv).2 ≠ [] →
      failureLine (runTool ctx env fmtDate remote inv).1 m) ∧
    ((runToolTs ctx env fmtDate remote inv).2 ≠ [] →
      failureLogTs (runToolTs ctx env fmtDate remote inv).1 m) := by
  obtain ⟨hc, hcard, hb, hl, hfr⟩ := hr
  have hec : ∀ r', fetchErr (remote.cards r') = some m := fun r' => by rw [hc r']; rfl
  have hecard : ∀ r', fetchErr (remote.card r') = some m := fun r' => by rw [hcard r']; rfl
  have heb : ∀ r', fetchErr (remote.boards r') = some m := fun r' => by rw [hb r']; rfl
  have hel : ∀ r', fetchErr (remote.lists r') = some m := fun r' => by rw [hl r']; rfl
  have hef : ∀ r', fetchErr (remote.free r') = some m := fun r' => by rw [hfr r']; rfl
  refine ⟨?_, ?_, ?_⟩
  · intro hm hinv
    cases inv with
    | setup => exact absurd rfl hinv
    | list a =>
      refine ⟨?_, ?_⟩
      · rw [show runTool ctx env fmtDate remote (.list a) = trello_list ctx env a fmtDate remote from rfl,
          trello_list_missing ctx env a fmtDate remote hm]
        exact failureLine_mk _ _ (by decide)
      · rw [show runToolTs ctx env fmtDate remote (.list a) = trelloListTs ctx env a fmtDate remote from rfl,
          trelloListTs_missing ctx env a fmtDate remote hm]
        exact failureLogTs_mk _ _ (by decide)
    | add a =>
      refine ⟨?_, ?_⟩
      · rw [show runTool ctx env fmtDate remote (.add a) = trello_add ctx env a remote from rfl,
          trello_add_missing ctx env a remote hm]
        exact failureLine_mk _ _ (by decide)
      · rw [show runToolTs ctx env fmtDate remote (.add a) = trelloAddTs ctx env a remote from rfl,
          trelloAddTs_missing ctx env a remote hm]
        exact failureLogTs_mk _ _ (by decide)
    | update a =>
      refine ⟨?_, ?_⟩
      · rw [show runTool ctx env fmtDate remote (.update a) = trello_update ctx env a remote from rfl,
          trello_update_missing ctx env a remote hm]
        exact failureLine_mk _ _ (by decide)
      · rw [show runToolTs ctx env fmtDate remote (.update a) = trelloUpdateTs ctx env a remote from rfl,
          trelloUpdateTs_missing ctx env a remote hm]
        exact failureLogTs_mk _ _ (by decide)
    | delete a =>
      refine ⟨?_, ?_⟩
      · rw [show runTool ctx env fmtDate remote (.delete a) = trello_delete ctx env a remote from rfl,
          trello_delete_missing ctx env a remote hm]
        exact failureLine_mk _ _ (by decide)
      · rw [show runToolTs ctx env fmtDate remote (.delete a) = trelloDeleteTs ctx env a remote from rfl,
          trelloDeleteTs_missing ctx env a remote hm]
        exact failureLogTs_mk _ _ (by decide)
    | boards =>
      refine ⟨?_, ?_⟩
      · rw [show runTool ctx env fmtDate remote .boards = trello_boards ctx env remote from rfl,
          trello_boards_missing ctx env remote hm]
        exact failureLine_mk _ _ (by decide)
      · rw [show runToolTs ctx env fmtDate remote .boards = trelloBoardsTs ctx env remote from rfl,
          trelloBoardsTs_missing ctx env remote hm]
        exact failureLogTs_mk _ _ (by decide)
    | lists =>
      refine ⟨?_, ?_⟩
      · rw [show runTool ctx env fmtDate remote .lists = trello_lists ctx env remote from rfl,
          trello_lists_missing ctx env remote hm]
        exact failureLine_mk _ _ (by decide)
      · rw [show runToolTs ctx env fmtDate remote .lists = trelloListsTs ctx env remote from rfl,
          trelloListsTs_missing ctx env remote hm]
        exact failureLogTs_mk _ _ (by decide)
    | done a =>
      refine ⟨?_, ?_⟩
      · rw [show runTool ctx env fmtDate remote (.done a) = trello_done ctx env a remote from rfl,
          trello_done_missing ctx env a remote hm]
        exact failureLine_mk _ _ (by decide)
      · rw [show runToolTs ctx env fmtDate remote (.done a) = trelloDoneTs ctx env a remote from rfl,
          trelloDoneTs_missing ctx env a remote hm]
        exact failureLogTs_mk _ _ (by decide)
  · intro hne
    cases inv with
    | setup => exact absurd rfl hne
    | list a =>
      cases hmv : missing env with
      | true =>
        rw [show runTool ctx env fmtDate remote (.list a) = trello_list ctx env a fmtDate remote
          from rfl, trello_list_missing ctx env a fmtDate remote hmv] at hne
        exact absurd rfl hne
      | false =>
        obtain ⟨rq, hq⟩ := trello_list_fetch_error ctx env a fmtDate remote m hmv hec
        rw [show runTool ctx env fmtDate remote (.list a) = trello_list ctx env a fmtDate remote
          from rfl, hq]
        exact failureLine_mk _ _ (by decide)
    | add a =>
      cases hmv : missing env with
      | true =>
        rw [show runTool ctx env fmtDate remote (.add a) = trello_add ctx env a remote
          from rfl, trello_add_missing ctx env a remote hmv] at hne
        exact absurd rfl hne
      | false =>
        rcases htg : truthyOpt (jsOr a.listId (configOf env).defaultListId) with _ | tgt
        · rw [show runTool ctx env fmtDate remote (.add a) = trello_add ctx env a remote
            from rfl, trello_add_warn ctx env a remote hmv htg] at hne
          exact absurd rfl hne
        · obtain ⟨rq, hq⟩ := trello_add_fetch_error ctx env a remote m tgt hmv htg hecard
          rw [show runTool ctx env fmtDate remote (.add a) = trello_add ctx env a remote
            from rfl, hq]
          exact failureLine_mk _ _ (by decide)
    | update a =>
      cases hmv : missing env with
      | true =>
        rw [show runTool ctx env fmtDate remote (.update a) = trello_update ctx env a remote
          from rfl, trello_update_missing ctx env a remote hmv] at hne
        exact absurd rfl hne
      | false =>
        obtain ⟨rq, hq⟩ := trello_update_fetch_error ctx env a remote m hmv hef
        rw [show runTool ctx env fmtDate remote (.update a) = trello_update ctx env a remote
          from rfl, hq]
        exact failureLine_mk _ _ (by decide)
    | delete a =>
      cases hmv : missing env with
      | true =>
        rw [show runTool ctx env fmtDate remote (.delete a) = trello_delete ctx env a remote
          from rfl, trello_delete_missing ctx env a remote hmv] at hne
        exact absurd rfl hne
      | false =>
        obtain ⟨rq, hq⟩ := trello_delete_fetch_error ctx env a remote m hmv hef
        rw [show runTool ctx env fmtDate remote (.delete a) = trello_delete ctx env a remote
          from rfl, hq]
        exact failureLine_mk _ _ (by decide)
    | boards =>
      cases hmv : missing env with
      | true =>
        rw [show runTool ctx env fmtDate remote .boards = trello_boards ctx env remote
          from rfl, trello_boards_missing ctx env remote hmv] at hne
        exact absurd rfl hne
      | false =>
        obtain ⟨rq, hq⟩ := trello_boards_fetch_error ctx env remote m hmv heb
        rw [show runTool ctx env fmtDate remote .boards = trello_boards ctx env remote
          from rfl, hq]
        exact failureLine_mk _ _ (by decide)
    | lists =>
      cases hmv : missing env with
      | true =>
        rw [show runTool ctx env fmtDate remote .lists = trello_lists ctx env remote
          from rfl, trello_lists_missing ctx env remote hmv] at hne
        exact absurd rfl hne
      | false =>
        obtain ⟨rq, hq⟩ := trello_lists_fetch_error ctx env remote m hmv hel
        rw [show runTool ctx env fmtDate remote .lists = trello_lists ctx env remote
          from rfl, hq]
        exact failureLine_mk _ _ (by decide)
    | done a =>
      cases hmv : missing env with
      | true =>
        rw [show runTool ctx env fmtDate remote (.done a) = trello_done ctx env a remote
          from rfl, trello_done_missing ctx env a remote hmv] at hne
        exact absurd rfl hne
      | false =>
        obtain ⟨rq, hq⟩ := trello_done_fetch_error ctx env a remote m hmv hef
        rw [show runTool ctx env fmtDate remote (.done a) = trello_done ctx env a remote
          from rfl, hq]
        exact failureLine_mk _ _ (by decide)
  · intro hne
    cases inv with
    | setup => exact absurd rfl hne
    | list a =>
      cases hmv : missing env with
      | true =>
        rw [show runToolTs ctx env fmtDate remote (.list a) = trelloListTs ctx env a fmtDate remote
          from rfl, trelloListTs_missing ctx env a fmtDate remote hmv] at hne
        exact absurd rfl hne
      | false =>
        obtain ⟨rq, hq⟩ := trelloListTs_fetch_error ctx env a fmtDate remote m hmv hec
        rw [show runToolTs ctx env fmtDate remote (.list a) = trelloListTs ctx env a fmtDate remote
          from rfl, hq]
        exact failureLogTs_mk _ _ (by decide)
    | add a =>
      cases hmv : missing env with
      | true =>
        rw [show runToolTs ctx env fmtDate remote (.add a) = trelloAddTs ctx env a remote
          from rfl, trelloAddTs_missing ctx env a remote hmv] at hne
        exact absurd rfl hne
      | false =>
        rcases htg : truthyOpt (jsOr a.listId (configOf env).defaultListId) with _ | tgt
        · rw [show runToolTs ctx env fmtDate remote (.add a) = trelloAddTs ctx env a remote
            from rfl, trelloAddTs_warn ctx env a remote hmv htg] at hne
          exact absurd rfl hne
        · obtain ⟨rq, hq⟩ := trelloAddTs_fetch_error ctx env a remote m tgt hmv htg hecard
          rw [show runToolTs ctx env fmtDate remote (.add a) = trelloAddTs ctx env a remote
            from rfl, hq]
          exact failureLogTs_mk _ _ (by decide)
    | update a =>
      cases hmv : missing env with
      | true =>
        rw [show runToolTs ctx env fmtDate remote (.update a) = trelloUpdateTs ctx env a remote
          from rfl, trelloUpdateTs_missing ctx env a remote hmv] at hne
        exact absurd rfl hne
      | false =>
        obtain ⟨rq, hq⟩ := trelloUpdateTs_fetch_error ctx env a remote m hmv hecard
        rw [show runToolTs ctx env fmtDate remote (.update a) = trelloUpdateTs ctx env a remote
          from rfl, hq]
        exact failureLogTs_mk _ _ (by decide)
    | delete a =>
      cases hmv : missing env with
      | true =>
        rw [show runToolTs ctx env fmtDate remote (.delete a) = trelloDeleteTs ctx env a remote
          from rfl, trelloDeleteTs_missing ctx env a remote hmv] at hne
        exact absurd rfl hne
      | false =>
        obtain ⟨rq, hq⟩ := trelloDeleteTs_fetch_error ctx env a remote m hmv hef
        rw [show runToolTs ctx env fmtDate remote (.delete a) = trelloDeleteTs ctx env a remote
          from rfl, hq]
        exact failureLogTs_mk _ _ (by decide)
    | boards =>
      cases hmv : missing env with
      | true =>
        rw [show runToolTs ctx env fmtDate remote .boards = trelloBoardsTs ctx env remote
          from rfl, trelloBoardsTs_missing ctx env remote hmv] at hne
        exact absurd rfl hne
      | false =>
        obtain ⟨rq, hq⟩ := trelloBoardsTs_fetch_error ctx env remote m hmv heb
        rw [show runToolTs ctx env fmtDate remote .boards = trelloBoardsTs ctx env remote
          from rfl, hq]
        exact failureLogTs_mk _ _ (by decide)
    | lists =>
      cases hmv : missing env with
      | true =>
        rw [show runToolTs ctx env fmtDate remote .lists = trelloListsTs ctx env remote
          from rfl, trelloListsTs_missing ctx env remote hmv] at hne
        exact absurd rfl hne
      | false =>
        obtain ⟨rq, hq⟩ := trelloListsTs_fetch_error ctx env remote m hmv hel
        rw [show runToolTs ctx env fmtDate remote .lists = trelloListsTs ctx env remote
          from rfl, hq]
        exact failureLogTs_mk _ _ (by decide)
    | done a =>
      cases hmv : missing env with
      | true =>
        rw [show runToolTs ctx env fmtDate remote (.done a) = trelloDoneTs ctx env a remote
          from rfl, trelloDoneTs_missing ctx env a remote hmv] at hne
        exact absurd rfl hne
      | false =>
        obtain ⟨rq, hq⟩ := trelloDoneTs_fetch_error ctx env a remote m hmv hecard
        rw [show runToolTs ctx env fmtDate remote (.done a) = trelloDoneTs ctx env a remote
          from rfl, hq]
        exact failureLogTs_mk _ _ (by decide)

theorem c1_failure_semantics_witness :
    (missing envNone = true → Invocation.list ⟨none⟩ ≠ Invocation.setup →
      failureLine (runTool ctx0 envNone id (netErrRemote "boom") (.list ⟨none⟩)).1 configIncompleteMsg ∧
      failureLogTs (runToolTs ctx0 envNone id (netErrRemote "boom") (.list ⟨none⟩)).1 configIncompleteMsgTs) ∧
    ((runTool ctx0 envNone id (netErrRemote "boom") (.list ⟨none⟩)).2 ≠ [] →
      failureLine (runTool ctx0 envNone id (netErrRemote "boom") (.list ⟨none⟩)).1 "boom") ∧
    ((runToolTs ctx0 envNone id (netErrRemote "boom") (.list ⟨none⟩)).2 ≠ [] →
      failureLogTs (runToolTs ctx0 envNone id (netErrRemote "boom") (.list ⟨none⟩)).1 "boom") :=
  c1_failure_semantics (.list ⟨none⟩) ctx0 envNone id "boom" (netErrRemote "boom")
    (netErrRemote_spec "boom")

/-- The status code and the body text occur verbatim in a transport error
line. -/
theorem apiErr_contains (p : String) (status : Nat) (body : String) :
    strContains (p ++ ("Trello API error (" ++ toString status ++ "): " ++ body)) (toString status) ∧
    strContains (p ++ ("Trello API error (" ++ toString status ++ "): " ++ body)) body := by
  constructor
  · apply strContains_intro (p ++ "Trello API error (") ("): " ++ body)
    simp [strToList_append, List.append_assoc]
  · apply strContains_intro (p ++ ("Trello API error (" ++ toString status ++ "): ")) ""
    simp [strToList_append, List.append_assoc]

/-- C8: with a valid configuration and a remote answering with a non-success
HTTP status and body, any operation that issued a request surfaces an error
text containing both the status code and the body verbatim; and every
operation of either variant issues at most one request (single attempt, no
retry). -/
theorem c8_http_error_surfaced (inv : Invocation) (ctx : Ctx) (env : Env)
    (fmtDate : String → String) (status : Nat) (body : String) (remote : Remote)
    (hr : remoteAllHttpErr remote status body) (hm : missing env = false) :
    ((runTool ctx env fmtDate remote inv).2 ≠ [] →
      strContains (runTool ctx env fmtDate remote inv).1 (toString status) ∧
      strContains (runTool ctx env fmtDate remote inv).1 body ∧
      (runTool ctx env fmtDate remote inv).2.length = 1) ∧
    ((runToolTs ctx env fmtDate remote inv).2 ≠ [] →
      (∃ s, (runToolTs ctx env fmtDate remote inv).1 = [⟨.error, s⟩] ∧
        strContains s (toString status) ∧ strContains s body) ∧
      (runToolTs ctx env fmtDate remote inv).2.length = 1) ∧
    (runTool ctx env fmtDate remote inv).2.length ≤ 1 ∧
    (runToolTs ctx env fmtDate remote inv).2.length ≤ 1 := by
  obtain ⟨hc, hcard, hb, hl, hfr⟩ := hr
  have hec : ∀ r', fetchErr (remote.cards r') =
      some ("Trello API error (" ++ toString status ++ "): " ++ body) := fun r' => by rw [hc r']; rfl
  have hecard : ∀ r', fetchErr (remote.card r') =
      some ("Trello API error (" ++ toString status ++ "): " ++ body) := fun r' => by rw [hcard r']; rfl
  have heb : ∀ r', fetchErr (remote.boards r') =
      some ("Trello API error (" ++ toString status ++ "): " ++ body) := fun r' => by rw [hb r']; rfl
  have hel : ∀ r', fetchErr (remote.lists r') =
      some ("Trello API error (" ++ toString status ++ "): " ++ body) := fun r' => by rw [hl r']; rfl
  have hef : ∀ r', fetchErr (remote.free r') =
      some ("Trello API error (" ++ toString status ++ "): " ++ body) := fun r' => by rw [hfr r']; rfl
  refine ⟨?_, ?_, ?_, ?_⟩
  · intro hne
    cases inv with
    | setup => exact absurd rfl hne
    | list a =>
      obtain ⟨rq, hq⟩ := trello_list_fetch_error ctx env a fmtDate remote _ hm hec
      rw [show runTool ctx env fmtDate remote (.list a) = trello_list ctx env a fmtDate remote
        from rfl, hq]
      exact ⟨(apiErr_contains _ status body).1, (apiErr_contains _ status body).2, rfl⟩
    | add a =>
      rcases htg : truthyOpt (jsOr a.listId (configOf env).defaultListId) with _ | tgt
      · rw [show runTool ctx env fmtDate remote (.add a) = trello_add ctx env a remote
          from rfl, trello_add_warn ctx env a remote hm htg] at hne
        exact absurd rfl hne
      · obtain ⟨rq, hq⟩ := trello_add_fetch_error ctx env a remote _ tgt hm htg hecard
        rw [show runTool ctx env fmtDate remote (.add a) = trello_add ctx env a remote
          from rfl, hq]
        exact ⟨(apiErr_contains _ status body).1, (apiErr_contains _ status body).2, rfl⟩
    | update a =>
      obtain ⟨rq, hq⟩ := trello_update_fetch_error ctx env a remote _ hm hef
      rw [show runTool ctx env fmtDate remote (.update a) = trello_update ctx env a remote
        from rfl, hq]
      exact ⟨(apiErr_contains _ status body).1, (apiErr_contains _ status body).2, rfl⟩
    | delete a =>
      obtain ⟨rq, hq⟩ := trello_delete_fetch_error ctx env a remote _ hm hef
      rw [show runTool ctx env fmtDate remote (.delete a) = trello_delete ctx env a remote
        from rfl, hq]
      exact ⟨(apiErr_contains _ status body).1, (apiErr_contains _ status body).2, rfl⟩
    | boards =>
      obtain ⟨rq, hq⟩ := trello_boards_fetch_error ctx env remote _ hm heb
      rw [show runTool ctx env fmtDate remote .boards = trello_boards ctx env remote
        from rfl, hq]
      exact ⟨(apiErr_contains _ status body).1, (apiErr_contains _ status body).2, rfl⟩
    | lists =>
      obtain ⟨rq, hq⟩ := trello_lists_fetch_error ctx env remote _ hm hel
      rw [show runTool ctx env fmtDate remote .lists = trello_lists ctx env remote
        from rfl, hq]
      exact ⟨(apiErr_contains _ status body).1, (apiErr_contains _ status body).2, rfl⟩
    | done a =>
      obtain ⟨rq, hq⟩ := trello_done_fetch_error ctx env a remote _ hm hef
      rw [show runTool ctx env fmtDate remote (.done a) = trello_done ctx env a remote
        from rfl, hq]
      exact ⟨(apiErr_contains _ status body).1, (apiErr_contains _ status body).2, rfl⟩
  · intro hne
    cases inv with
    | setup => exact absurd rfl hne
    | list a =>
      obtain ⟨rq, hq⟩ := trelloListTs_fetch_error ctx env a fmtDate remote _ hm hec
      rw [show runToolTs ctx env fmtDate remote (.list a) = trelloListTs ctx env a fmtDate remote
        from rfl, hq]
      exact ⟨⟨_, rfl, (apiErr_contains _ status body).1, (apiErr_contains _ status body).2⟩, rfl⟩
    | add a =>
      rcases htg : truthyOpt (jsOr a.listId (configOf env).defaultListId) with _ | tgt
      · rw [show runToolTs ctx env fmtDate remote (.add a) = trelloAddTs ctx env a remote
          from rfl, trelloAddTs_warn ctx env a remote hm htg] at hne
        exact absurd rfl hne
      · obtain ⟨rq, hq⟩ := trelloAddTs_fetch_error ctx env a remote _ tgt hm htg hecard
        rw [show runToolTs ctx env fmtDate remote (.add a) = trelloAddTs ctx env a remote
          from rfl, hq]
        exact ⟨⟨_, rfl, (apiErr_contains _ status body).1, (apiErr_contains _ status body).2⟩, rfl⟩
    | update a =>
      obtain ⟨rq, hq⟩ := trelloUpdateTs_fetch_error ctx env a remote _ hm hecard
      rw [show runToolTs ctx env fmtDate remote (.update a) = trelloUpdateTs ctx env a remote
        from rfl, hq]
      exact ⟨⟨_, rfl, (apiErr_contains _ status body).1, (apiErr_contains _ status body).2⟩, rfl⟩
    | delete a =>
      obtain ⟨rq, hq⟩ := trelloDeleteTs_fetch_error ctx env a remote _ hm hef
      rw [show runToolTs ctx env fmtDate remote (.delete a) = trelloDeleteTs ctx env a remote
        from rfl, hq]
      exact ⟨⟨_, rfl, (apiErr_contains _ status body).1, (apiErr_contains _ status body).2⟩, rfl⟩
    | boards =>
      obtain ⟨rq, hq⟩ := trelloBoardsTs_fetch_error ctx env remote _ hm heb
      rw [show runToolTs ctx env fmtDate remote .boards = trelloBoardsTs ctx env remote
        from rfl, hq]
      exact ⟨⟨_, rfl, (apiErr_contains _ status body).1, (apiErr_contains _ status body).2⟩, rfl⟩
    | lists =>
      obtain ⟨rq, hq⟩ := trelloListsTs_fetch_error ctx env remote _ hm hel
      rw [show runToolTs ctx env fmtDate remote .lists = trelloListsTs ctx env remote
        from rfl, hq]
      exact ⟨⟨_, rfl, (apiErr_contains _ status body).1, (apiErr_contains _ status body).2⟩, rfl⟩
    | done a =>
      obtain ⟨rq, hq⟩ := trelloDoneTs_fetch_error ctx env a remote _ hm hecard
      rw [show runToolTs ctx env fmtDate remote (.done a) = trelloDoneTs ctx env a remote
        from rfl, hq]
      exact ⟨⟨_, rfl, (apiErr_contains _ status body).1, (apiErr_contains _ status body).2⟩, rfl⟩
  · cases inv with
    | setup => exact Nat.zero_le 1
    | list a => exact trello_list_reqs_le ctx env a fmtDate remote
    | add a => exact trello_add_reqs_le ctx env a remote
    | update a => exact trello_update_reqs_le ctx env a remote
    | delete a => exact trello_delete_reqs_le ctx env a remote
    | boards => exact trello_boards_reqs_le ctx env remote
    | lists => exact trello_lists_reqs_le ctx env remote
    | done a => exact trello_done_reqs_le ctx env a remote
  · cases inv with
    | setup => exact Nat.zero_le 1
    | list a => exact trelloListTs_reqs_le ctx env a fmtDate remote
    | add a => exact trelloAddTs_reqs_le ctx env a remote
    | update a => exact trelloUpdateTs_reqs_le ctx env a remote
    | delete a => exact trelloDeleteTs_reqs_le ctx env a remote
    | boards => exact trelloBoardsTs_reqs_le ctx env remote
    | lists => exact trelloListsTs_reqs_le ctx env remote
    | done a => exact trelloDoneTs_reqs_le ctx env a remote

theorem c8_http_error_surfaced_witness :
    ((runTool ctx0 envBoard id (httpErrRemote 404 "card not found") (.delete ⟨"c3"⟩)).2 ≠ [] →
      strContains (runTool ctx0 envBoard id (httpErrRemote 404 "card not found") (.delete ⟨"c3"⟩)).1 (toString 404) ∧
      strContains (runTool ctx0 envBoard id (httpErrRemote 404 "card not found") (.delete ⟨"c3"⟩)).1 "card not found" ∧
      (runTool ctx0 envBoard id (httpErrRemote 404 "card not found") (.delete ⟨"c3"⟩)).2.length = 1) ∧
    ((runToolTs ctx0 envBoard id (httpErrRemote 404 "card not found") (.delete ⟨"c3"⟩)).2 ≠ [] →
      (∃ s, (runToolTs ctx0 envBoard id (httpErrRemote 404 "card not found") (.delete ⟨"c3"⟩)).1 = [⟨.error, s⟩] ∧
        strContains s (toString 404) ∧ strContains s "card not found") ∧
      (runToolTs ctx0 envBoard id (httpErrRemote 404 "card not found") (.delete ⟨"c3"⟩)).2.length = 1) ∧
    (runTool ctx0 envBoard id (httpErrRemote 404 "card not found") (.delete ⟨"c3"⟩)).2.length ≤ 1 ∧
    (runToolTs ctx0 envBoard id (httpErrRemote 404 "card not found") (.delete ⟨"c3"⟩)).2.length ≤ 1 :=
  c8_http_error_surfaced (.delete ⟨"c3"⟩) ctx0 envBoard id 404 "card not found"
    (httpErrRemote 404 "card not found") (httpErrRemote_spec 404 "card not found") (by decide)

end Trello
